import Mathlib

/-!
Verification of the mockgen program (go_work/mockgen/main.go).

The program is a mock-data generator: it wipes and recreates a base
directory, then writes text files, CSV files and images into it, plus
subdirectories each holding a note and a thumbnail.

Shallow embedding conventions:
* A path is a list of components; filepath.Join appends a component.
* The filesystem is an association list from paths to entries, updated
  functionally.  os.RemoveAll deletes every entry having the given path
  as a prefix; a write replaces the entry at its path.
* All I/O failure points (os.RemoveAll, os.MkdirAll, os.WriteFile,
  os.Create, image encoding, csv.Writer.Write) are driven by an
  environment oracle, as is all random content produced by the gofakeit
  library (which is an external dependency, modelled by opaque content
  functions keyed by path and row index, together with the contracts its
  documentation states, taken as hypotheses).
* Machine floats from gofakeit.Float64Range are modelled as rationals;
  fmt.Sprintf with a %.2f verb is modelled as rounding to the nearest
  hundredth (nonnegative values only, which is all this program formats).
* time.Time is modelled as a civil date plus a time-of-day, ordered
  lexicographically; Format with layout 2006-01-02 renders the date part.
-/

/-! ### Paths and filesystem -/

abbrev FPath := List String

/-- filepath.Join of a directory and one more component. -/
def fpJoin (dir : FPath) (name : String) : FPath := dir ++ [name]

/-- Render a path the way filepath.Join renders it on unix. -/
def pathStr (p : FPath) : String := String.intercalate "/" p

/-- Image formats the program can emit. -/
inductive ImgFormat where
  | png
  | jpeg
deriving DecidableEq, Repr

/-- A filesystem entry.  An image entry records the format chosen by the
encoder, the pixel dimensions requested by the caller, and whether the
encode step succeeded (false models a file left empty or truncated after
png.Encode or jpeg.Encode failed).  A csv entry records the list of
records actually written by csv.Writer.Write calls that succeeded. -/
inductive Entry where
  | text (content : String)
  | csv (records : List (List String))
  | image (fmt : ImgFormat) (width height : Nat) (ok : Bool)
  | dir
deriving DecidableEq, Repr

/-- The filesystem: an association list from paths to entries. -/
abbrev FS := List (FPath × Entry)

/-- Remove the entry at exactly path p. -/
def FS.erase (fs : FS) (p : FPath) : FS :=
  fs.filter (fun e => decide (e.1 ≠ p))

/-- Write (create or replace) the entry at path p. -/
def FS.set (fs : FS) (p : FPath) (e : Entry) : FS :=
  fs.erase p ++ [(p, e)]

/-- os.RemoveAll: delete the entry at p and every entry below it. -/
def FS.removeAll (fs : FS) (p : FPath) : FS :=
  fs.filter (fun e => decide (¬ p.isPrefixOf e.1))

/-- Look up the entry at path p. -/
def FS.get (fs : FS) (p : FPath) : Option Entry :=
  (fs.find? (fun e => decide (e.1 = p))).map Prod.snd

/-! ### Dates, times and decimal formatting -/

/-- A civil date, as held by a normalized time.Time. -/
structure Date where
  year : Int
  month : Int
  day : Int
deriving DecidableEq, Repr

/-- An instant: a civil date plus a second-of-day.  gofakeit.DateRange
produces instants; Format with layout 2006-01-02 keeps only the date. -/
structure Time where
  date : Date
  sec : Nat
deriving DecidableEq, Repr

/-- Strict order on normalized civil dates (lexicographic). -/
def dateLt (a b : Date) : Prop :=
  a.year < b.year ∨ (a.year = b.year ∧
    (a.month < b.month ∨ (a.month = b.month ∧ a.day < b.day)))

/-- Order on normalized civil dates (lexicographic). -/
def dateLe (a b : Date) : Prop :=
  a.year < b.year ∨ (a.year = b.year ∧
    (a.month < b.month ∨ (a.month = b.month ∧ a.day ≤ b.day)))

/-- Order on instants: date first, then second-of-day. -/
def timeLe (a b : Time) : Prop :=
  dateLt a.date b.date ∨ (a.date = b.date ∧ a.sec ≤ b.sec)

instance (a b : Date) : Decidable (dateLt a b) := by unfold dateLt; infer_instance
instance (a b : Date) : Decidable (dateLe a b) := by unfold dateLe; infer_instance
instance (a b : Time) : Decidable (timeLe a b) := by unfold timeLe; infer_instance

/-- Number of days in a month of the proleptic Gregorian calendar, as
used by Go time normalization. -/
def daysInMonth (y m : Int) : Int :=
  if m = 2 then
    if y % 4 = 0 ∧ (y % 100 ≠ 0 ∨ y % 400 = 0) then 29 else 28
  else if m = 4 ∨ m = 6 ∨ m = 9 ∨ m = 11 then 30
  else 31

/-- Bring a (year, month) pair with an arbitrary month into normalized
form with month in 1..12, rolling whole years. -/
def normMonths (y m : Int) : Int × Int :=
  (y + (m - 1) / 12 - (if (m - 1) % 12 < 0 then 1 else 0),
   (m - 1).emod 12 + 1)

/-- Go time.Time.AddDate(0, k, 0): shift by k months, then normalize a
day that overflows the target month the way time.Date does (a day past
the month end rolls into the following month; since the day was at most
31 and every month has at least 28 days, a single roll suffices). -/
def addMonthsDate (dt : Date) (k : Int) : Date :=
  let ym := normMonths dt.year (dt.month + k)
  if dt.day > daysInMonth ym.1 ym.2 then
    let d := dt.day - daysInMonth ym.1 ym.2
    let ym2 := normMonths ym.1 (ym.2 + 1)
    ⟨ym2.1, ym2.2, d⟩
  else ⟨ym.1, ym.2, dt.day⟩

/-- Go time.Time.AddDate(0, k, 0) on an instant: clock time unchanged. -/
def addMonthsTime (t : Time) (k : Int) : Time :=
  ⟨addMonthsDate t.date k, t.sec⟩

/-- The decimal digit characters, little interface for formatting. -/
def digitChar : Nat → Char
  | 0 => '0' | 1 => '1' | 2 => '2' | 3 => '3' | 4 => '4'
  | 5 => '5' | 6 => '6' | 7 => '7' | 8 => '8' | _ => '9'

/-- Numeric value of a decimal digit character. -/
def digitVal : Char → Nat
  | '0' => 0 | '1' => 1 | '2' => 2 | '3' => 3 | '4' => 4
  | '5' => 5 | '6' => 6 | '7' => 7 | '8' => 8 | _ => 9

/-- Is this a decimal digit character? -/
def isDig (c : Char) : Bool :=
  c = '0' ∨ c = '1' ∨ c = '2' ∨ c = '3' ∨ c = '4' ∨
  c = '5' ∨ c = '6' ∨ c = '7' ∨ c = '8' ∨ c = '9'

/-- Decimal digits of n, most significant first (just 0 for 0), as the
fmt package renders a nonnegative integer. -/
def natDigs (n : Nat) : List Char :=
  if _h : n < 10 then [digitChar n]
  else natDigs (n / 10) ++ [digitChar (n % 10)]
decreasing_by exact Nat.div_lt_self (by omega) (by omega)

/-- Decimal rendering zero-padded to width 2 (Go layout tokens 01, 02). -/
def pad2 (n : Nat) : List Char :=
  if n < 10 then '0' :: natDigs n else natDigs n

/-- Decimal rendering zero-padded to width 4 (Go layout token 2006). -/
def pad4 (n : Nat) : List Char :=
  if n < 10 then '0' :: '0' :: '0' :: natDigs n
  else if n < 100 then '0' :: '0' :: natDigs n
  else if n < 1000 then '0' :: natDigs n
  else natDigs n

/-- Greedily read a run of decimal digits off the front of a character
list, returning the digits and the rest. -/
def readDigs : List Char → List Char × List Char
  | [] => ([], [])
  | c :: rest =>
    if isDig c then
      let p := readDigs rest
      (c :: p.1, p.2)
    else ([], c :: rest)

/-- Value of a nonempty all-digit character list, as a parser reads it. -/
def digsValAux (acc : Nat) : List Char → Option Nat
  | [] => some acc
  | c :: rest => if isDig c then digsValAux (acc * 10 + digitVal c) rest else none

/-- Parse a nonempty run of decimal digits. -/
def digsToNat : List Char → Option Nat
  | [] => none
  | cs => digsValAux 0 cs

/-- Format a date with Go layout 2006-01-02. -/
def fmtDate (d : Date) : String :=
  String.mk (pad4 d.year.toNat ++ '-' :: (pad2 d.month.toNat ++ '-' :: pad2 d.day.toNat))

/-- Read a nonempty run of decimal digits as a number, returning the
remaining characters as well. -/
def readNum (cs : List Char) : Option (Nat × List Char) :=
  (digsToNat (readDigs cs).1).map (fun n => (n, (readDigs cs).2))

/-- Read a nonempty run of decimal digits that must exhaust the input. -/
def readNumEnd (cs : List Char) : Option Nat :=
  (readNum cs).bind (fun pd => if pd.2 = [] then some pd.1 else none)

/-- Demand one specific character at the front of the input. -/
def expectCh (c : Char) : List Char → Option (List Char)
  | d :: rest => if d = c then some rest else none
  | [] => none

/-- Parse a YYYY-MM-DD string back into a date. -/
def parseDate (s : String) : Option Date :=
  (readNum s.data).bind (fun py =>
  (expectCh '-' py.2).bind (fun r1 =>
  (readNum r1).bind (fun pm =>
  (expectCh '-' pm.2).bind (fun r2 =>
  (readNumEnd r2).map (fun d => ⟨(py.1 : Int), (pm.1 : Int), (d : Int)⟩)))))

/-- Round a rational to the nearest hundredth, the model of what
fmt.Sprintf renders with a %.2f verb. -/
def round2 (x : ℚ) : ℚ := (round (x * 100) : Int) / 100

/-- Format a nonnegative rational with the %.2f verb: the digits of the
integer part, a point, and exactly two fraction digits. -/
def fmtF2 (x : ℚ) : String :=
  let n := (round (x * 100) : Int).toNat
  String.mk (natDigs (n / 100) ++ '.' :: pad2 (n % 100))

/-- Parse exactly two fraction digits exhausting the input, as the
hundredths they denote. -/
def fracPart (r1 : List Char) : Option ℚ :=
  if (readDigs r1).2 = [] ∧ (readDigs r1).1.length = 2 then
    (digsToNat (readDigs r1).1).map (fun b => (b : ℚ) / 100)
  else none

/-- Parse a fixed-point decimal with exactly two fraction digits. -/
def parseF2 (s : String) : Option ℚ :=
  (readNum s.data).bind (fun pi =>
  (expectCh '.' pi.2).bind (fun r1 =>
  (fracPart r1).map (fun b => (pi.1 : ℚ) + b)))

/-- filepath.Ext applied to the characters of the last path component:
the characters strictly after the final dot, if any. -/
def afterLastDot : List Char → Option (List Char)
  | [] => none
  | c :: rest =>
    match afterLastDot rest with
    | some e => some e
    | none => if c = '.' then some rest else none

/-- filepath.Ext of a path: the suffix of the final component that
starts at its last dot, or the empty string when it has no dot. -/
def goExt (p : FPath) : String :=
  match afterLastDot (p.getLastD "").data with
  | some e => String.mk ('.' :: e)
  | none => ""

/-! ### The program state, environment and configuration -/

/-- Observable state threaded through a run: the filesystem and the
lines printed to standard output, in order. -/
structure St where
  fs : FS
  out : List String
deriving Repr

/-- The environment oracle: one field per I/O failure point of the
program, plus the random content that the gofakeit library returns at
each call site (keyed by the path being written and, for CSV rows, the
row index), plus the value of time.Now for this run.  csvWriteErr row
index 0 is the header write, index i + 1 is data row i. -/
structure Env where
  removeAllErr : FPath → Option String
  mkdirErr : FPath → Option String
  writeFileErr : FPath → Option String
  createErr : FPath → Option String
  encodeErr : FPath → Option String
  csvWriteErr : FPath → Nat → Bool
  paragraph : FPath → String
  notePhrase : FPath → String
  uuid : FPath → Nat → String
  dateRange : FPath → Nat → Time
  amount : FPath → Nat → ℚ
  descPhrase : FPath → Nat → String
  now : Time

/-- The Config struct of the program.  Counts are Go ints. -/
structure Config where
  baseDir : FPath
  textFiles : Int
  csvFiles : Int
  imageFiles : Int
  subDirs : Int

/-- The fixed configuration literal in main. -/
def mainConfig : Config :=
  { baseDir := ["..", "..", "mock_data"]
    textFiles := 5
    csvFiles := 2
    imageFiles := 3
    subDirs := 2 }

/-! ### The program -/

/-- writeTextFile: os.WriteFile the content; on error print a message
and continue (the error is swallowed). -/
def writeTextFile (env : Env) (path : FPath) (content : String) (st : St) : St :=
  match env.writeFileErr path with
  | some e =>
    { st with out := st.out ++ ["Error writing text file " ++ pathStr path ++ ": " ++ e] }
  | none => { st with fs := st.fs.set path (Entry.text content) }

/-- One CSV record: a UUID, a date in the last six months formatted
2006-01-02, a Float64Range(1.0, 1000.0) amount formatted %.2f, and a
phrase. -/
def mkRecord (env : Env) (path : FPath) (i : Nat) : List String :=
  [env.uuid path i,
   fmtDate (env.dateRange path i).date,
   fmtF2 (env.amount path i),
   env.descPhrase path i]

/-- The fixed CSV header record. -/
def csvHeader : List String := ["UserID", "Timestamp", "Amount", "Description"]

/-- The records that end up in a CSV file: the header if its
csv.Writer.Write call succeeded, then each data row whose write call
succeeded, in order. -/
def csvContent (env : Env) (path : FPath) (rows : Int) : List (List String) :=
  (if env.csvWriteErr path 0 then [] else [csvHeader]) ++
  (List.range rows.toNat).filterMap
    (fun i => if env.csvWriteErr path (i + 1) then none else some (mkRecord env path i))

/-- writeCSVFile: os.Create the file (on error print a message and
return), then write the header and one record per row with
csv.Writer.Write, whose errors are discarded: a failed write just drops
that record from the file. -/
def writeCSVFile (env : Env) (path : FPath) (rows : Int) (st : St) : St :=
  match env.createErr path with
  | some e =>
    { st with out := st.out ++ ["Error creating CSV file " ++ pathStr path ++ ": " ++ e] }
  | none =>
    { st with fs := st.fs.set path (Entry.csv (csvContent env path rows)) }

/-- writeImageFile: os.Create the file (on error print a message and
return), then encode the gofakeit image as PNG when the path extension
is .png and as JPEG otherwise; the encode error is discarded, leaving
the created file possibly empty or truncated. -/
def writeImageFile (env : Env) (path : FPath) (width height : Int) (st : St) : St :=
  match env.createErr path with
  | some e =>
    { st with out := st.out ++ ["Error creating image file " ++ pathStr path ++ ": " ++ e] }
  | none =>
    let fmt := if goExt path = ".png" then ImgFormat.png else ImgFormat.jpeg
    let ok := (env.encodeErr path).isNone
    { st with fs := st.fs.set path (Entry.image fmt width.toNat height.toNat ok) }

/-- The subdirectory loop of generateMockData: for each index create
internal_data_i (a failure aborts with the error), then write the note
and the thumbnail. -/
def subdirLoop (env : Env) (base : FPath) : List Nat → St → Except String Unit × St
  | [], st => (Except.ok (), st)
  | i :: rest, st =>
    let sub := fpJoin base ("internal_data_" ++ toString i)
    match env.mkdirErr sub with
    | some e => (Except.error e, st)
    | none =>
      let st1 := { st with fs := st.fs.set sub Entry.dir }
      let st2 := writeTextFile env (fpJoin sub "secret_note.md") (env.notePhrase (fpJoin sub "secret_note.md")) st1
      let st3 := writeImageFile env (fpJoin sub "thumb.png") 100 100 st2
      subdirLoop env base rest st3

/-- generateMockData: remove and recreate the base directory (either
failure aborts with the error), then write the text files, the CSV
files, the images, and the subdirectories. -/
def generateMockData (env : Env) (cfg : Config) (st : St) : Except String Unit × St :=
  match env.removeAllErr cfg.baseDir with
  | some e => (Except.error e, st)
  | none =>
    let st := { st with fs := st.fs.removeAll cfg.baseDir }
    match env.mkdirErr cfg.baseDir with
    | some e => (Except.error e, st)
    | none =>
      let st := { st with fs := st.fs.set cfg.baseDir Entry.dir }
      let st := (List.range cfg.textFiles.toNat).foldl
        (fun s i =>
          let p := fpJoin cfg.baseDir ("document_" ++ toString i ++ ".txt")
          writeTextFile env p (env.paragraph p) s) st
      let st := (List.range cfg.csvFiles.toNat).foldl
        (fun s i =>
          writeCSVFile env (fpJoin cfg.baseDir ("transactions_" ++ toString i ++ ".csv")) 100 s) st
      let st := (List.range cfg.imageFiles.toNat).foldl
        (fun s i =>
          writeImageFile env (fpJoin cfg.baseDir ("photo_" ++ toString i ++ ".jpg")) 640 480 s) st
      subdirLoop env cfg.baseDir (List.range cfg.subDirs.toNat) st

/-- main: print the banner, run the generator over the ambient
filesystem, and either print the fatal error and exit 1 or print the
completion line and exit 0.  Returns the exit code and final state. -/
def mainGo (env : Env) (fs : FS) : Nat × St :=
  let st0 : St := ⟨fs, ["--- Generating Mock Data in '" ++ pathStr mainConfig.baseDir ++ "' ---"]⟩
  match generateMockData env mainConfig st0 with
  | (Except.error e, st) => (1, { st with out := st.out ++ ["FATAL Error: " ++ e] })
  | (Except.ok _, st) => (0, { st with out := st.out ++ ["--- Generation Complete. Ready for TDD. ---"] })

/-- Content half of an environment: the gofakeit outputs and the clock,
with every failure oracle answering success. -/
structure EnvContent where
  paragraph : FPath → String
  notePhrase : FPath → String
  uuid : FPath → Nat → String
  dateRange : FPath → Nat → Time
  amount : FPath → Nat → ℚ
  descPhrase : FPath → Nat → String
  now : Time

/-- The environment of a run in which every I/O operation succeeds. -/
def okEnv (c : EnvContent) : Env :=
  { removeAllErr := fun _ => none
    mkdirErr := fun _ => none
    writeFileErr := fun _ => none
    createErr := fun _ => none
    encodeErr := fun _ => none
    csvWriteErr := fun _ _ => false
    paragraph := c.paragraph
    notePhrase := c.notePhrase
    uuid := c.uuid
    dateRange := c.dateRange
    amount := c.amount
    descPhrase := c.descPhrase
    now := c.now }

/-- An environment in which exactly one os.WriteFile call fails. -/
def envTextFail (c : EnvContent) (p0 : FPath) (e : String) : Env :=
  { okEnv c with writeFileErr := fun p => if p = p0 then some e else none }

/-- An environment in which exactly one os.Create call fails. -/
def envCreateFail (c : EnvContent) (p0 : FPath) (e : String) : Env :=
  { okEnv c with createErr := fun p => if p = p0 then some e else none }

/-- An environment in which exactly one os.MkdirAll call fails. -/
def envMkdirFail (c : EnvContent) (p0 : FPath) (e : String) : Env :=
  { okEnv c with mkdirErr := fun p => if p = p0 then some e else none }

/-- An environment in which os.RemoveAll fails. -/
def envRemoveAllFail (c : EnvContent) (e : String) : Env :=
  { okEnv c with removeAllErr := fun _ => some e }

/-- An environment in which one image encode call fails. -/
def envEncodeFail (c : EnvContent) (p0 : FPath) (e : String) : Env :=
  { okEnv c with encodeErr := fun p => if p = p0 then some e else none }

/-- An environment in which one csv.Writer.Write call fails (record
index i0 of the file at p0; 0 is the header). -/
def envCsvWriteFail (c : EnvContent) (p0 : FPath) (i0 : Nat) : Env :=
  { okEnv c with csvWriteErr := fun p i => decide (p = p0 ∧ i = i0) }

/-- A concrete content assignment, used to instantiate theorems about
arbitrary runs at one specific run. -/
def constContent : EnvContent :=
  { paragraph := fun _ => "lorem ipsum"
    notePhrase := fun _ => "note"
    uuid := fun _ _ => "00000000-0000-0000-0000-000000000000"
    dateRange := fun _ _ => ⟨⟨2026, 7, 1⟩, 0⟩
    amount := fun _ _ => 3 / 2
    descPhrase := fun _ _ => "desc"
    now := ⟨⟨2026, 10, 11⟩, 0⟩ }

/-- Path of the i-th top-level text file. -/
def docPath (i : Nat) : FPath := fpJoin mainConfig.baseDir ("document_" ++ toString i ++ ".txt")

/-- Path of the i-th CSV file. -/
def transPath (i : Nat) : FPath := fpJoin mainConfig.baseDir ("transactions_" ++ toString i ++ ".csv")

/-- Path of the i-th top-level image. -/
def photoPath (i : Nat) : FPath := fpJoin mainConfig.baseDir ("photo_" ++ toString i ++ ".jpg")

/-- Path of the i-th subdirectory. -/
def subPath (i : Nat) : FPath := fpJoin mainConfig.baseDir ("internal_data_" ++ toString i)

/-- Path of the note in the i-th subdirectory. -/
def notePath (i : Nat) : FPath := fpJoin (subPath i) "secret_note.md"

/-- Path of the thumbnail in the i-th subdirectory. -/
def thumbPath (i : Nat) : FPath := fpJoin (subPath i) "thumb.png"

/-- The sequence of filesystem writes a fully successful run of
generateMockData with the fixed main configuration performs after the
base directory has been cleared: equal by definitional unfolding to the
filesystem component generateMockData produces (see the lemma below). -/
def runFS (c : EnvContent) (fs : FS) : FS :=
  (((((((((((((((((fs.set
    mainConfig.baseDir Entry.dir).set
    (docPath 0) (Entry.text (c.paragraph (docPath 0)))).set
    (docPath 1) (Entry.text (c.paragraph (docPath 1)))).set
    (docPath 2) (Entry.text (c.paragraph (docPath 2)))).set
    (docPath 3) (Entry.text (c.paragraph (docPath 3)))).set
    (docPath 4) (Entry.text (c.paragraph (docPath 4)))).set
    (transPath 0) (Entry.csv (csvContent (okEnv c) (transPath 0) 100))).set
    (transPath 1) (Entry.csv (csvContent (okEnv c) (transPath 1) 100))).set
    (photoPath 0) (Entry.image ImgFormat.jpeg 640 480 true)).set
    (photoPath 1) (Entry.image ImgFormat.jpeg 640 480 true)).set
    (photoPath 2) (Entry.image ImgFormat.jpeg 640 480 true)).set
    (subPath 0) Entry.dir).set
    (notePath 0) (Entry.text (c.notePhrase (notePath 0)))).set
    (thumbPath 0) (Entry.image ImgFormat.png 100 100 true)).set
    (subPath 1) Entry.dir).set
    (notePath 1) (Entry.text (c.notePhrase (notePath 1)))).set
    (thumbPath 1) (Entry.image ImgFormat.png 100 100 true))

/-- The top-level half of a run in which both directory operations
succeed: clear and recreate the base directory, then the three
top-level writer loops, unrolled at the fixed main configuration. -/
def topRun (env : Env) (st : St) : St :=
  let st1 := { st with fs := (st.fs.removeAll mainConfig.baseDir).set mainConfig.baseDir Entry.dir }
  let st2 := writeTextFile env (docPath 0) (env.paragraph (docPath 0)) st1
  let st3 := writeTextFile env (docPath 1) (env.paragraph (docPath 1)) st2
  let st4 := writeTextFile env (docPath 2) (env.paragraph (docPath 2)) st3
  let st5 := writeTextFile env (docPath 3) (env.paragraph (docPath 3)) st4
  let st6 := writeTextFile env (docPath 4) (env.paragraph (docPath 4)) st5
  let st7 := writeCSVFile env (transPath 0) 100 st6
  let st8 := writeCSVFile env (transPath 1) 100 st7
  let st9 := writeImageFile env (photoPath 0) 640 480 st8
  let st10 := writeImageFile env (photoPath 1) 640 480 st9
  writeImageFile env (photoPath 2) 640 480 st10

/-- A run in which every directory operation succeeds: the top-level
half followed by the two subdirectories and their files, unrolled at
the fixed main configuration. -/
def happyRun (env : Env) (st : St) : St :=
  let st1 := { topRun env st with fs := (topRun env st).fs.set (subPath 0) Entry.dir }
  let st2 := writeTextFile env (notePath 0) (env.notePhrase (notePath 0)) st1
  let st3 := writeImageFile env (thumbPath 0) 100 100 st2
  let st4 := { st3 with fs := st3.fs.set (subPath 1) Entry.dir }
  let st5 := writeTextFile env (notePath 1) (env.notePhrase (notePath 1)) st4
  writeImageFile env (thumbPath 1) 100 100 st5

/-! ### Helper lemmas: digits, parsing, rounding -/

theorem digitVal_digitChar {n : Nat} (h : n < 10) : digitVal (digitChar n) = n := by
  interval_cases n <;> rfl

theorem isDig_digitChar {n : Nat} (h : n < 10) : isDig (digitChar n) = true := by
  interval_cases n <;> rfl

theorem natDigs_all_dig : ∀ n, ∀ c ∈ natDigs n, isDig c = true := by
  intro n
  induction n using Nat.strong_induction_on with
  | _ n ih =>
    intro c hc
    rw [natDigs] at hc
    by_cases h : n < 10
    · simp only [h, dif_pos, List.mem_singleton] at hc
      subst hc; exact isDig_digitChar h
    · simp only [h, dif_neg, not_false_iff, List.mem_append, List.mem_singleton] at hc
      rcases hc with hc | hc
      · exact ih (n / 10) (Nat.div_lt_self (by omega) (by omega)) c hc
      · subst hc; exact isDig_digitChar (Nat.mod_lt n (by omega))

theorem natDigs_ne_nil (n : Nat) : natDigs n ≠ [] := by
  rw [natDigs]
  by_cases h : n < 10 <;> simp [h]

theorem digsValAux_append (xs : List Char) :
    ∀ acc ys, digsValAux acc (xs ++ ys) =
      (digsValAux acc xs).bind (fun a => digsValAux a ys) := by
  induction xs with
  | nil => intro acc ys; rfl
  | cons c rest ih =>
    intro acc ys
    simp only [List.cons_append, digsValAux]
    by_cases h : isDig c
    · simp [h, ih]
    · simp [h]

theorem digsValAux_natDigs : ∀ n acc,
    digsValAux acc (natDigs n) = some (acc * 10 ^ (natDigs n).length + n) := by
  intro n
  induction n using Nat.strong_induction_on with
  | _ n ih =>
    intro acc
    rw [natDigs]
    by_cases h : n < 10
    · simp only [h, dif_pos, digsValAux, isDig_digitChar h, if_pos, digitVal_digitChar h,
        List.length_singleton, pow_one]
    · simp only [h, dif_neg, not_false_iff]
      rw [digsValAux_append]
      rw [ih (n / 10) (Nat.div_lt_self (by omega) (by omega)) acc]
      have hm : n % 10 < 10 := Nat.mod_lt n (by omega)
      simp only [Option.bind_some, digsValAux, isDig_digitChar hm, if_pos,
        digitVal_digitChar hm, List.length_append, List.length_singleton]
      have hsplit : n / 10 * 10 + n % 10 = n := by omega
      have h2 : (acc * 10 ^ (natDigs (n / 10)).length + n / 10) * 10 + n % 10 =
          acc * (10 ^ (natDigs (n / 10)).length * 10) + (n / 10 * 10 + n % 10) := by ring
      show some ((acc * 10 ^ (natDigs (n / 10)).length + n / 10) * 10 + n % 10) =
        some (acc * 10 ^ ((natDigs (n / 10)).length + 1) + n)
      rw [h2, hsplit, pow_succ]

theorem digsToNat_natDigs (n : Nat) : digsToNat (natDigs n) = some n := by
  have hne := natDigs_ne_nil n
  rcases hd : natDigs n with _ | ⟨c, rest⟩
  · exact absurd hd hne
  · show digsValAux 0 (c :: rest) = some n
    rw [← hd, digsValAux_natDigs]
    simp

theorem digsValAux_zero_cons (cs : List Char) :
    digsValAux 0 ('0' :: cs) = digsValAux 0 cs := by
  show (if isDig '0' then digsValAux (0 * 10 + digitVal '0') cs else none) = _
  norm_num [isDig, digitVal]

theorem digsToNat_pad2 (n : Nat) : digsToNat (pad2 n) = some n := by
  unfold pad2
  by_cases h10 : n < 10
  · rw [if_pos h10]
    have hne := natDigs_ne_nil n
    show digsToNat ('0' :: natDigs n) = some n
    rcases hd : natDigs n with _ | ⟨c, rest⟩
    · exact absurd hd hne
    · show digsValAux 0 ('0' :: c :: rest) = some n
      rw [digsValAux_zero_cons, ← hd, digsValAux_natDigs]
      simp
  · rw [if_neg h10]; exact digsToNat_natDigs n

theorem digsToNat_pad4 (n : Nat) : digsToNat (pad4 n) = some n := by
  unfold pad4
  have key : ∀ k cs, digsValAux 0 (List.replicate k '0' ++ cs) = digsValAux 0 cs := by
    intro k
    induction k with
    | zero => intro cs; rfl
    | succ m ih =>
      intro cs
      show digsValAux 0 ('0' :: (List.replicate m '0' ++ cs)) = _
      rw [digsValAux_zero_cons, ih]
  have main : ∀ k, digsToNat (List.replicate k '0' ++ natDigs n) = some n := by
    intro k
    have hne : List.replicate k '0' ++ natDigs n ≠ [] := by
      simp [natDigs_ne_nil n]
    rcases hd : List.replicate k '0' ++ natDigs n with _ | ⟨c, rest⟩
    · exact absurd hd hne
    · show digsValAux 0 (c :: rest) = some n
      rw [← hd, key]
      have hne2 := natDigs_ne_nil n
      rcases hd2 : natDigs n with _ | ⟨c2, rest2⟩
      · exact absurd hd2 hne2
      · show digsValAux 0 (c2 :: rest2) = some n
        rw [← hd2, digsValAux_natDigs]
        simp
  by_cases h1 : n < 10
  · rw [if_pos h1]; exact main 3
  · rw [if_neg h1]
    by_cases h2 : n < 100
    · rw [if_pos h2]; exact main 2
    · rw [if_neg h2]
      by_cases h3 : n < 1000
      · rw [if_pos h3]; exact main 1
      · rw [if_neg h3]; exact digsToNat_natDigs n

theorem pad2_all_dig (n : Nat) : ∀ c ∈ pad2 n, isDig c = true := by
  intro c hc
  unfold pad2 at hc
  by_cases h : n < 10
  · rw [if_pos h] at hc
    rcases List.mem_cons.mp hc with hc | hc
    · subst hc; rfl
    · exact natDigs_all_dig n c hc
  · rw [if_neg h] at hc; exact natDigs_all_dig n c hc

theorem pad4_all_dig (n : Nat) : ∀ c ∈ pad4 n, isDig c = true := by
  intro c hc
  unfold pad4 at hc
  by_cases h1 : n < 10
  · rw [if_pos h1] at hc
    simp only [List.mem_cons] at hc
    rcases hc with hc | hc | hc | hc
    · subst hc; rfl
    · subst hc; rfl
    · subst hc; rfl
    · exact natDigs_all_dig n c hc
  · rw [if_neg h1] at hc
    by_cases h2 : n < 100
    · rw [if_pos h2] at hc
      simp only [List.mem_cons] at hc
      rcases hc with hc | hc | hc
      · subst hc; rfl
      · subst hc; rfl
      · exact natDigs_all_dig n c hc
    · rw [if_neg h2] at hc
      by_cases h3 : n < 1000
      · rw [if_pos h3] at hc
        simp only [List.mem_cons] at hc
        rcases hc with hc | hc
        · subst hc; rfl
        · exact natDigs_all_dig n c hc
      · rw [if_neg h3] at hc
        exact natDigs_all_dig n c hc

theorem natDigs_length_one {n : Nat} (h : n < 10) : (natDigs n).length = 1 := by
  rw [natDigs, dif_pos h]; rfl

theorem pad2_length {n : Nat} (h : n < 100) : (pad2 n).length = 2 := by
  unfold pad2
  by_cases h10 : n < 10
  · rw [if_pos h10]
    simp [natDigs_length_one h10]
  · rw [if_neg h10]
    rw [natDigs, dif_neg h10]
    have : n / 10 < 10 := by omega
    simp [natDigs_length_one this]

theorem readDigs_split (xs : List Char) :
    ∀ ys, (∀ c ∈ xs, isDig c = true) →
      (∀ y, ys.head? = some y → isDig y = false) →
      readDigs (xs ++ ys) = (xs, ys) := by
  induction xs with
  | nil =>
    intro ys _ h2
    rcases ys with _ | ⟨y, t⟩
    · rfl
    · have := h2 y rfl
      show readDigs (y :: t) = ([], y :: t)
      rw [readDigs]
      simp [this]
  | cons c rest ih =>
    intro ys h1 h2
    have hc : isDig c = true := h1 c (List.mem_cons_self c rest)
    show readDigs (c :: (rest ++ ys)) = (c :: rest, ys)
    rw [readDigs]
    simp only [hc, if_pos]
    rw [ih ys (fun d hd => h1 d (List.mem_cons_of_mem c hd)) h2]

theorem round_mono_q {x y : ℚ} (h : x ≤ y) : round x ≤ round y := by
  rw [round_eq, round_eq]
  exact Int.floor_le_floor (by linarith)

theorem round_x100_lb {x : ℚ} (h1 : 1 ≤ x) : (100 : ℤ) ≤ round (x * 100) := by
  have h100 : round ((100 : ℚ)) = 100 := by
    have := round_intCast (α := ℚ) 100
    simpa using this
  have := round_mono_q (x := (100 : ℚ)) (y := x * 100) (by linarith)
  omega

theorem round_x100_ub {x : ℚ} (h2 : x ≤ 1000) : round (x * 100) ≤ (100000 : ℤ) := by
  have h100 : round ((100000 : ℚ)) = 100000 := by
    have := round_intCast (α := ℚ) 100000
    simpa using this
  have := round_mono_q (x := x * 100) (y := (100000 : ℚ)) (by linarith)
  omega

theorem round2_bounds {x : ℚ} (h1 : 1 ≤ x) (h2 : x ≤ 1000) :
    1 ≤ round2 x ∧ round2 x ≤ 1000 := by
  have hl := round_x100_lb h1
  have hu := round_x100_ub h2
  constructor
  · unfold round2
    rw [le_div_iff₀ (by norm_num : (0 : ℚ) < 100)]
    have : (100 : ℚ) ≤ ((round (x * 100) : ℤ) : ℚ) := by exact_mod_cast hl
    linarith
  · unfold round2
    rw [div_le_iff₀ (by norm_num : (0 : ℚ) < 100)]
    have : ((round (x * 100) : ℤ) : ℚ) ≤ (100000 : ℚ) := by exact_mod_cast hu
    linarith

theorem readNum_split (xs ys : List Char) (h1 : ∀ c ∈ xs, isDig c = true)
    (h2 : ∀ y, ys.head? = some y → isDig y = false) :
    readNum (xs ++ ys) = (digsToNat xs).map (fun n => (n, ys)) := by
  unfold readNum
  rw [readDigs_split xs ys h1 h2]

theorem readNum_all (xs : List Char) (h1 : ∀ c ∈ xs, isDig c = true) :
    readNum xs = (digsToNat xs).map (fun n => (n, [])) := by
  have := readNum_split xs [] h1 (by intro y hy; simp at hy)
  simpa using this

theorem readNumEnd_all (xs : List Char) (h1 : ∀ c ∈ xs, isDig c = true) :
    readNumEnd xs = digsToNat xs := by
  unfold readNumEnd
  rw [readNum_all xs h1]
  cases digsToNat xs <;> simp

theorem expectCh_self (c : Char) (l : List Char) : expectCh c (c :: l) = some l := by
  simp [expectCh]

theorem fracPart_pad2 {n : Nat} (h : n < 100) : fracPart (pad2 n) = some ((n : ℚ) / 100) := by
  unfold fracPart
  have hr : readDigs (pad2 n) = (pad2 n, []) := by
    have := readDigs_split (pad2 n) [] (pad2_all_dig n) (by intro y hy; simp at hy)
    simpa using this
  rw [hr]
  simp [pad2_length h, digsToNat_pad2]

theorem parseDate_fmtDate {d : Date}
    (hy0 : 0 ≤ d.year) (hm0 : 0 ≤ d.month) (hd0 : 0 ≤ d.day) :
    parseDate (fmtDate d) = some d := by
  show parseDate (String.mk (pad4 d.year.toNat ++ '-' :: (pad2 d.month.toNat ++ '-' :: pad2 d.day.toNat))) = some d
  unfold parseDate
  rw [show (String.mk (pad4 d.year.toNat ++ '-' :: (pad2 d.month.toNat ++ '-' :: pad2 d.day.toNat))).data
      = pad4 d.year.toNat ++ '-' :: (pad2 d.month.toNat ++ '-' :: pad2 d.day.toNat) from rfl]
  rw [readNum_split _ _ (pad4_all_dig _) (by intro y hy; injection hy with hy; subst hy; decide)]
  rw [digsToNat_pad4]
  simp only [Option.map_some', Option.some_bind']
  rw [expectCh_self]
  simp only [Option.some_bind']
  rw [readNum_split _ _ (pad2_all_dig _) (by intro y hy; injection hy with hy; subst hy; decide)]
  rw [digsToNat_pad2]
  simp only [Option.map_some', Option.some_bind']
  rw [expectCh_self]
  simp only [Option.some_bind']
  rw [readNumEnd_all _ (pad2_all_dig _), digsToNat_pad2]
  rw [Int.toNat_of_nonneg hy0, Int.toNat_of_nonneg hm0]
  simp [Int.toNat_of_nonneg hd0]

theorem parseF2_fmtF2 {x : ℚ} (h1 : 1 ≤ x) :
    parseF2 (fmtF2 x) = some (round2 x) := by
  have hl := round_x100_lb h1
  have hnn : (0 : ℤ) ≤ round (x * 100) := by omega
  show parseF2 (String.mk (natDigs ((round (x * 100)).toNat / 100) ++ '.' :: pad2 ((round (x * 100)).toNat % 100))) = some (round2 x)
  unfold parseF2
  rw [show (String.mk (natDigs ((round (x * 100)).toNat / 100) ++ '.' :: pad2 ((round (x * 100)).toNat % 100))).data
      = natDigs ((round (x * 100)).toNat / 100) ++ '.' :: pad2 ((round (x * 100)).toNat % 100) from rfl]
  rw [readNum_split _ _ (natDigs_all_dig _) (by intro y hy; injection hy with hy; subst hy; decide)]
  rw [digsToNat_natDigs]
  simp only [Option.map_some', Option.some_bind']
  rw [expectCh_self]
  simp only [Option.some_bind']
  rw [fracPart_pad2 (Nat.mod_lt _ (by omega))]
  simp only [Option.map_some']
  congr 1
  unfold round2
  have hn : (((round (x * 100)).toNat : ℚ)) = ((round (x * 100) : ℤ) : ℚ) := by
    exact_mod_cast Int.toNat_of_nonneg hnn
  rw [← hn]
  have hsplit : (round (x * 100)).toNat / 100 * 100 + (round (x * 100)).toNat % 100
      = (round (x * 100)).toNat := by omega
  field_simp
  exact_mod_cast hsplit

/-! ### Helper lemmas: the filesystem -/

theorem isPrefixOf_append_self (b l : FPath) : b.isPrefixOf (b ++ l) = true := by
  induction b with
  | nil => cases l <;> rfl
  | cons x xs ih => simp [List.isPrefixOf, ih]

theorem removeAll_set_under (fs : FS) (p : FPath) (e : Entry) (b : FPath)
    (h : b.isPrefixOf p = true) :
    (fs.set p e).removeAll b = fs.removeAll b := by
  unfold FS.set FS.removeAll FS.erase
  rw [List.filter_append]
  have h2 : List.filter (fun x => decide (¬ b.isPrefixOf x.1 = true)) [(p, e)] = [] := by
    simp only [List.filter_cons, List.filter_nil, h]
    norm_num
  rw [h2, List.append_nil, List.filter_filter]
  have h3 : ∀ a : FPath × Entry,
      (decide (¬ b.isPrefixOf a.1 = true) && decide (a.1 ≠ p)) = decide (¬ b.isPrefixOf a.1 = true) := by
    intro a
    by_cases hb : b.isPrefixOf a.1 = true
    · simp only [hb]
      norm_num
    · have hne : a.1 ≠ p := by
        intro heq
        rw [heq] at hb
        exact hb h
      simp only [hb, hne]
      norm_num
      exact hne
  simp only [h3]

theorem removeAll_removeAll (fs : FS) (b : FPath) :
    (fs.removeAll b).removeAll b = fs.removeAll b := by
  unfold FS.removeAll
  rw [List.filter_filter]
  simp

theorem removeAll_set_join (fs : FS) (b : FPath) (x : String) (e : Entry) :
    (fs.set (fpJoin b x) e).removeAll b = fs.removeAll b :=
  removeAll_set_under _ _ _ _ (isPrefixOf_append_self b [x])

theorem removeAll_set_join2 (fs : FS) (b : FPath) (x y : String) (e : Entry) :
    (fs.set (fpJoin (fpJoin b x) y) e).removeAll b = fs.removeAll b :=
  removeAll_set_under _ _ _ _
    (by unfold fpJoin; rw [List.append_assoc]; exact isPrefixOf_append_self b ([x] ++ [y]))

theorem removeAll_set_self (fs : FS) (b : FPath) (e : Entry) :
    (fs.set b e).removeAll b = fs.removeAll b :=
  removeAll_set_under _ _ _ _ (by simpa using isPrefixOf_append_self b [])

theorem get_set_self (fs : FS) (p : FPath) (e : Entry) : (fs.set p e).get p = some e := by
  unfold FS.set FS.get FS.erase
  induction fs with
  | nil =>
    show (List.find? (fun x => decide (x.1 = p)) [(p, e)]).map Prod.snd = some e
    rw [List.find?_cons_of_pos _ (by simp)]
    rfl
  | cons a t ih =>
    by_cases h : a.1 = p
    · have hdrop : decide (a.1 ≠ p) = false := by simp [h]
      rw [List.filter_cons, hdrop, if_neg (by simp)]
      exact ih
    · have hkeep : decide (a.1 ≠ p) = true := by simp [h]
      rw [List.filter_cons, hkeep, if_pos (by simp), List.cons_append]
      rw [List.find?_cons_of_neg _ (by simp [h])]
      exact ih

/-! ### Helper lemmas: the shape of a fully successful run -/

set_option maxHeartbeats 1000000 in
theorem gen_fs (c : EnvContent) (st : St) :
    (generateMockData (okEnv c) mainConfig st).2.fs
      = runFS c (st.fs.removeAll mainConfig.baseDir) := rfl

set_option maxHeartbeats 1000000 in
theorem gen_fst (c : EnvContent) (st : St) :
    (generateMockData (okEnv c) mainConfig st).1 = Except.ok () := rfl

theorem runFS_removeAll (c : EnvContent) (fs : FS) :
    (runFS c fs).removeAll mainConfig.baseDir = fs.removeAll mainConfig.baseDir := by
  unfold runFS docPath transPath photoPath notePath thumbPath subPath
  simp only [removeAll_set_join2, removeAll_set_join, removeAll_set_self]

/-! ### Helper lemmas: writers and run shapes -/

theorem writeTextFile_none {env : Env} {p : FPath} (ct : String) (st : St)
    (h : env.writeFileErr p = none) :
    writeTextFile env p ct st = ⟨st.fs.set p (Entry.text ct), st.out⟩ := by
  unfold writeTextFile
  rw [h]

theorem writeTextFile_some {env : Env} {p : FPath} {e : String} (ct : String) (st : St)
    (h : env.writeFileErr p = some e) :
    writeTextFile env p ct st
      = ⟨st.fs, st.out ++ ["Error writing text file " ++ pathStr p ++ ": " ++ e]⟩ := by
  unfold writeTextFile
  rw [h]

theorem writeCSVFile_none {env : Env} {p : FPath} (rows : Int) (st : St)
    (h : env.createErr p = none) :
    writeCSVFile env p rows st = ⟨st.fs.set p (Entry.csv (csvContent env p rows)), st.out⟩ := by
  unfold writeCSVFile
  rw [h]

theorem writeCSVFile_some {env : Env} {p : FPath} {e : String} (rows : Int) (st : St)
    (h : env.createErr p = some e) :
    writeCSVFile env p rows st
      = ⟨st.fs, st.out ++ ["Error creating CSV file " ++ pathStr p ++ ": " ++ e]⟩ := by
  unfold writeCSVFile
  rw [h]

theorem writeImageFile_none {env : Env} {p : FPath} (w hgt : Int) (st : St)
    (h : env.createErr p = none) :
    writeImageFile env p w hgt st
      = ⟨st.fs.set p (Entry.image (if goExt p = ".png" then ImgFormat.png else ImgFormat.jpeg)
          w.toNat hgt.toNat (env.encodeErr p).isNone), st.out⟩ := by
  unfold writeImageFile
  rw [h]

theorem writeImageFile_some {env : Env} {p : FPath} {e : String} (w hgt : Int) (st : St)
    (h : env.createErr p = some e) :
    writeImageFile env p w hgt st
      = ⟨st.fs, st.out ++ ["Error creating image file " ++ pathStr p ++ ": " ++ e]⟩ := by
  unfold writeImageFile
  rw [h]

theorem gen_okEnv (c : EnvContent) (st : St) :
    generateMockData (okEnv c) mainConfig st = (Except.ok (), happyRun (okEnv c) st) := rfl

theorem gen_envTextFail (c : EnvContent) (p0 : FPath) (e : String) (st : St) :
    generateMockData (envTextFail c p0 e) mainConfig st
      = (Except.ok (), happyRun (envTextFail c p0 e) st) := rfl

theorem gen_envCreateFail (c : EnvContent) (p0 : FPath) (e : String) (st : St) :
    generateMockData (envCreateFail c p0 e) mainConfig st
      = (Except.ok (), happyRun (envCreateFail c p0 e) st) := rfl

theorem gen_envEncodeFail (c : EnvContent) (p0 : FPath) (e : String) (st : St) :
    generateMockData (envEncodeFail c p0 e) mainConfig st
      = (Except.ok (), happyRun (envEncodeFail c p0 e) st) := rfl

theorem gen_envCsvWriteFail (c : EnvContent) (p0 : FPath) (i0 : Nat) (st : St) :
    generateMockData (envCsvWriteFail c p0 i0) mainConfig st
      = (Except.ok (), happyRun (envCsvWriteFail c p0 i0) st) := rfl

theorem gen_envRemoveAllFail (c : EnvContent) (e : String) (st : St) :
    generateMockData (envRemoveAllFail c e) mainConfig st = (Except.error e, st) := rfl

theorem gen_envMkdirFail_base (c : EnvContent) (e : String) (st : St) :
    generateMockData (envMkdirFail c mainConfig.baseDir e) mainConfig st
      = (Except.error e, ⟨st.fs.removeAll mainConfig.baseDir, st.out⟩) := rfl

set_option maxHeartbeats 1000000 in
theorem gen_envMkdirFail_sub (c : EnvContent) (e : String) (st : St) :
    generateMockData (envMkdirFail c (subPath 0) e) mainConfig st
      = (Except.error e, topRun (envMkdirFail c (subPath 0) e) st) := rfl

theorem get_set_ne (fs : FS) (p q : FPath) (e : Entry) (h : ¬ q = p) :
    (fs.set p e).get q = fs.get q := by
  unfold FS.set FS.get FS.erase
  induction fs with
  | nil =>
    show (List.find? (fun x => decide (x.1 = q)) [(p, e)]).map Prod.snd
      = (List.find? (fun x => decide (x.1 = q)) []).map Prod.snd
    rw [List.find?_cons_of_neg _ (by simp; exact fun hpq => h hpq.symm)]
  | cons a t ih =>
    by_cases hap : a.1 = p
    · have hdrop : decide (a.1 ≠ p) = false := by simp [hap]
      rw [List.filter_cons, hdrop, if_neg (by simp)]
      rw [ih]
      have haq : ¬ a.1 = q := by
        rw [hap]
        exact fun hpq => h hpq.symm
      show _ = (List.find? (fun x => decide (x.1 = q)) (a :: t)).map Prod.snd
      rw [List.find?_cons_of_neg _ (by simpa using haq)]
    · have hkeep : decide (a.1 ≠ p) = true := by simp [hap]
      rw [List.filter_cons, hkeep, if_pos (by simp), List.cons_append]
      by_cases haq : a.1 = q
      · rw [List.find?_cons_of_pos _ (by simpa using haq),
          List.find?_cons_of_pos _ (by simpa using haq)]
      · rw [List.find?_cons_of_neg _ (by simpa using haq),
          List.find?_cons_of_neg _ (by simpa using haq)]
        exact ih

theorem get_removeAll_under (fs : FS) (b p : FPath) (h : b.isPrefixOf p = true) :
    (fs.removeAll b).get p = none := by
  unfold FS.removeAll FS.get
  induction fs with
  | nil => rfl
  | cons a t ih =>
    by_cases hb : b.isPrefixOf a.1 = true
    · have hdrop : decide (¬ b.isPrefixOf a.1 = true) = false := by simp [hb]
      rw [List.filter_cons, hdrop, if_neg (by simp)]
      exact ih
    · have hkeep : decide (¬ b.isPrefixOf a.1 = true) = true := by simp [hb]
      rw [List.filter_cons, hkeep, if_pos (by simp)]
      have hap : ¬ a.1 = p := by
        intro heq
        rw [heq] at hb
        exact hb h
      rw [List.find?_cons_of_neg _ (by simpa using hap)]
      exact ih

theorem filterMap_some_eq_map (f : Nat → List String) (l : List Nat) :
    l.filterMap (fun a => some (f a)) = l.map f := by
  induction l with
  | nil => rfl
  | cons a t ih => simp [List.filterMap_cons, ih]

theorem csvContent_of_ok (env : Env) (p : FPath) (rows : Int)
    (h : ∀ i, env.csvWriteErr p i = false) :
    csvContent env p rows = csvHeader :: (List.range rows.toNat).map (mkRecord env p) := by
  unfold csvContent
  rw [h 0]
  have h2 : (fun i => if env.csvWriteErr p (i + 1) then none else some (mkRecord env p i))
      = fun i => some (mkRecord env p i) := by
    funext i
    rw [h (i + 1)]
    simp
  rw [h2, filterMap_some_eq_map]
  simp

theorem mainGo_okEnv (c : EnvContent) (fs : FS) :
    mainGo (okEnv c) fs
      = (0, ⟨(happyRun (okEnv c) ⟨fs, ["--- Generating Mock Data in '" ++ pathStr mainConfig.baseDir ++ "' ---"]⟩).fs,
             (happyRun (okEnv c) ⟨fs, ["--- Generating Mock Data in '" ++ pathStr mainConfig.baseDir ++ "' ---"]⟩).out
               ++ ["--- Generation Complete. Ready for TDD. ---"]⟩) := rfl

theorem mainGo_envRemoveAllFail (c : EnvContent) (e : String) (fs : FS) :
    mainGo (envRemoveAllFail c e) fs
      = (1, ⟨fs, ["--- Generating Mock Data in '" ++ pathStr mainConfig.baseDir ++ "' ---"]
               ++ ["FATAL Error: " ++ e]⟩) := rfl

theorem mainGo_envMkdirFail_base (c : EnvContent) (e : String) (fs : FS) :
    mainGo (envMkdirFail c mainConfig.baseDir e) fs
      = (1, ⟨fs.removeAll mainConfig.baseDir,
             ["--- Generating Mock Data in '" ++ pathStr mainConfig.baseDir ++ "' ---"]
               ++ ["FATAL Error: " ++ e]⟩) := rfl

theorem mainGo_envEncodeFail (c : EnvContent) (p0 : FPath) (e : String) (fs : FS) :
    (mainGo (envEncodeFail c p0 e) fs).1 = 0 := rfl

theorem mainGo_envCsvWriteFail (c : EnvContent) (p0 : FPath) (i0 : Nat) (fs : FS) :
    (mainGo (envCsvWriteFail c p0 i0) fs).1 = 0 := rfl

theorem envTextFail_at (c : EnvContent) (p0 : FPath) (e : String) :
    (envTextFail c p0 e).writeFileErr p0 = some e := by
  show (if p0 = p0 then some e else none) = some e
  rw [if_pos rfl]

theorem envTextFail_not_at (c : EnvContent) (p0 p : FPath) (e : String) (h : ¬ p = p0) :
    (envTextFail c p0 e).writeFileErr p = none := by
  show (if p = p0 then some e else none) = none
  rw [if_neg h]

theorem envCreateFail_at (c : EnvContent) (p0 : FPath) (e : String) :
    (envCreateFail c p0 e).createErr p0 = some e := by
  show (if p0 = p0 then some e else none) = some e
  rw [if_pos rfl]

theorem envCreateFail_not_at (c : EnvContent) (p0 p : FPath) (e : String) (h : ¬ p = p0) :
    (envCreateFail c p0 e).createErr p = none := by
  show (if p = p0 then some e else none) = none
  rw [if_neg h]

theorem envEncodeFail_at (c : EnvContent) (p0 : FPath) (e : String) :
    (envEncodeFail c p0 e).encodeErr p0 = some e := by
  show (if p0 = p0 then some e else none) = some e
  rw [if_pos rfl]

theorem envEncodeFail_not_at (c : EnvContent) (p0 p : FPath) (e : String) (h : ¬ p = p0) :
    (envEncodeFail c p0 e).encodeErr p = none := by
  show (if p = p0 then some e else none) = none
  rw [if_neg h]

theorem okEnv_writeFileErr (c : EnvContent) (p : FPath) : (okEnv c).writeFileErr p = none := rfl
theorem okEnv_createErr (c : EnvContent) (p : FPath) : (okEnv c).createErr p = none := rfl
theorem okEnv_encodeErr (c : EnvContent) (p : FPath) : (okEnv c).encodeErr p = none := rfl

theorem envTextFail_createErr (c : EnvContent) (p0 : FPath) (e : String) (p : FPath) :
    (envTextFail c p0 e).createErr p = none := rfl
theorem envTextFail_encodeErr (c : EnvContent) (p0 : FPath) (e : String) (p : FPath) :
    (envTextFail c p0 e).encodeErr p = none := rfl

theorem envCreateFail_writeFileErr (c : EnvContent) (p0 : FPath) (e : String) (p : FPath) :
    (envCreateFail c p0 e).writeFileErr p = none := rfl
theorem envCreateFail_encodeErr (c : EnvContent) (p0 : FPath) (e : String) (p : FPath) :
    (envCreateFail c p0 e).encodeErr p = none := rfl

theorem envEncodeFail_writeFileErr (c : EnvContent) (p0 : FPath) (e : String) (p : FPath) :
    (envEncodeFail c p0 e).writeFileErr p = none := rfl
theorem envEncodeFail_createErr (c : EnvContent) (p0 : FPath) (e : String) (p : FPath) :
    (envEncodeFail c p0 e).createErr p = none := rfl

theorem envCsvWriteFail_writeFileErr (c : EnvContent) (p0 : FPath) (i0 : Nat) (p : FPath) :
    (envCsvWriteFail c p0 i0).writeFileErr p = none := rfl
theorem envCsvWriteFail_createErr (c : EnvContent) (p0 : FPath) (i0 : Nat) (p : FPath) :
    (envCsvWriteFail c p0 i0).createErr p = none := rfl
theorem envCsvWriteFail_encodeErr (c : EnvContent) (p0 : FPath) (i0 : Nat) (p : FPath) :
    (envCsvWriteFail c p0 i0).encodeErr p = none := rfl

theorem envMkdirFail_writeFileErr (c : EnvContent) (p0 : FPath) (e : String) (p : FPath) :
    (envMkdirFail c p0 e).writeFileErr p = none := rfl
theorem envMkdirFail_createErr (c : EnvContent) (p0 : FPath) (e : String) (p : FPath) :
    (envMkdirFail c p0 e).createErr p = none := rfl

theorem get_set_ne2 (p q : FPath) (h : ¬ q = p) (fs : FS) (e : Entry) :
    (fs.set p e).get q = fs.get q :=
  get_set_ne fs p q e h

theorem happy_fs (c : EnvContent) (st : St) :
    (happyRun (okEnv c) st).fs = runFS c (st.fs.removeAll mainConfig.baseDir) := rfl

theorem happy_out_ok (c : EnvContent) (st : St) : (happyRun (okEnv c) st).out = st.out := by
  simp only [happyRun, topRun, writeTextFile, writeCSVFile, writeImageFile,
    okEnv_writeFileErr, okEnv_createErr]

set_option maxHeartbeats 1000000 in
theorem runFS_nil (c : EnvContent) :
    runFS c ([] : FS) =
      [(mainConfig.baseDir, Entry.dir),
       (docPath 0, Entry.text (c.paragraph (docPath 0))),
       (docPath 1, Entry.text (c.paragraph (docPath 1))),
       (docPath 2, Entry.text (c.paragraph (docPath 2))),
       (docPath 3, Entry.text (c.paragraph (docPath 3))),
       (docPath 4, Entry.text (c.paragraph (docPath 4))),
       (transPath 0, Entry.csv (csvHeader :: (List.range 100).map (mkRecord (okEnv c) (transPath 0)))),
       (transPath 1, Entry.csv (csvHeader :: (List.range 100).map (mkRecord (okEnv c) (transPath 1)))),
       (photoPath 0, Entry.image ImgFormat.jpeg 640 480 true),
       (photoPath 1, Entry.image ImgFormat.jpeg 640 480 true),
       (photoPath 2, Entry.image ImgFormat.jpeg 640 480 true),
       (subPath 0, Entry.dir),
       (notePath 0, Entry.text (c.notePhrase (notePath 0))),
       (thumbPath 0, Entry.image ImgFormat.png 100 100 true),
       (subPath 1, Entry.dir),
       (notePath 1, Entry.text (c.notePhrase (notePath 1))),
       (thumbPath 1, Entry.image ImgFormat.png 100 100 true)] := by
  unfold runFS
  rw [csvContent_of_ok (okEnv c) (transPath 0) 100 (fun i => rfl),
      csvContent_of_ok (okEnv c) (transPath 1) 100 (fun i => rfl)]
  have e1 : FS.set ([] : FS)
      (mainConfig.baseDir) (Entry.dir) =
      [(mainConfig.baseDir, Entry.dir)] := rfl
  have e2 : FS.set [(mainConfig.baseDir, Entry.dir)]
      (docPath 0) (Entry.text (c.paragraph (docPath 0))) =
      [(mainConfig.baseDir, Entry.dir),
       (docPath 0, Entry.text (c.paragraph (docPath 0)))] := rfl
  have e3 : FS.set [(mainConfig.baseDir, Entry.dir),
       (docPath 0, Entry.text (c.paragraph (docPath 0)))]
      (docPath 1) (Entry.text (c.paragraph (docPath 1))) =
      [(mainConfig.baseDir, Entry.dir),
       (docPath 0, Entry.text (c.paragraph (docPath 0))),
       (docPath 1, Entry.text (c.paragraph (docPath 1)))] := rfl
  have e4 : FS.set [(mainConfig.baseDir, Entry.dir),
       (docPath 0, Entry.text (c.paragraph (docPath 0))),
       (docPath 1, Entry.text (c.paragraph (docPath 1)))]
      (docPath 2) (Entry.text (c.paragraph (docPath 2))) =
      [(mainConfig.baseDir, Entry.dir),
       (docPath 0, Entry.text (c.paragraph (docPath 0))),
       (docPath 1, Entry.text (c.paragraph (docPath 1))),
       (docPath 2, Entry.text (c.paragraph (docPath 2)))] := rfl
  have e5 : FS.set [(mainConfig.baseDir, Entry.dir),
       (docPath 0, Entry.text (c.paragraph (docPath 0))),
       (docPath 1, Entry.text (c.paragraph (docPath 1))),
       (docPath 2, Entry.text (c.paragraph (docPath 2)))]
      (docPath 3) (Entry.text (c.paragraph (docPath 3))) =
      [(mainConfig.baseDir, Entry.dir),
       (docPath 0, Entry.text (c.paragraph (docPath 0))),
       (docPath 1, Entry.text (c.paragraph (docPath 1))),
       (docPath 2, Entry.text (c.paragraph (docPath 2))),
       (docPath 3, Entry.text (c.paragraph (docPath 3)))] := rfl
  have e6 : FS.set [(mainConfig.baseDir, Entry.dir),
       (docPath 0, Entry.text (c.paragraph (docPath 0))),
       (docPath 1, Entry.text (c.paragraph (docPath 1))),
       (docPath 2, Entry.text (c.paragraph (docPath 2))),
       (docPath 3, Entry.text (c.paragraph (docPath 3)))]
      (docPath 4) (Entry.text (c.paragraph (docPath 4))) =
      [(mainConfig.baseDir, Entry.dir),
       (docPath 0, Entry.text (c.paragraph (docPath 0))),
       (docPath 1, Entry.text (c.paragraph (docPath 1))),
       (docPath 2, Entry.text (c.paragraph (docPath 2))),
       (docPath 3, Entry.text (c.paragraph (docPath 3))),
       (docPath 4, Entry.text (c.paragraph (docPath 4)))] := rfl
  have e7 : FS.set [(mainConfig.baseDir, Entry.dir),
       (docPath 0, Entry.text (c.paragraph (docPath 0))),
       (docPath 1, Entry.text (c.paragraph (docPath 1))),
       (docPath 2, Entry.text (c.paragraph (docPath 2))),
       (docPath 3, Entry.text (c.paragraph (docPath 3))),
       (docPath 4, Entry.text (c.paragraph (docPath 4)))]
      (transPath 0) (Entry.csv (csvHeader :: (List.range (100 : Int).toNat).map (mkRecord (okEnv c) (transPath 0)))) =
      [(mainConfig.baseDir, Entry.dir),
       (docPath 0, Entry.text (c.paragraph (docPath 0))),
       (docPath 1, Entry.text (c.paragraph (docPath 1))),
       (docPath 2, Entry.text (c.paragraph (docPath 2))),
       (docPath 3, Entry.text (c.paragraph (docPath 3))),
       (docPath 4, Entry.text (c.paragraph (docPath 4))),
       (transPath 0, Entry.csv (csvHeader :: (List.range (100 : Int).toNat).map (mkRecord (okEnv c) (transPath 0))))] := rfl
  have e8 : FS.set [(mainConfig.baseDir, Entry.dir),
       (docPath 0, Entry.text (c.paragraph (docPath 0))),
       (docPath 1, Entry.text (c.paragraph (docPath 1))),
       (docPath 2, Entry.text (c.paragraph (docPath 2))),
       (docPath 3, Entry.text (c.paragraph (docPath 3))),
       (docPath 4, Entry.text (c.paragraph (docPath 4))),
       (transPath 0, Entry.csv (csvHeader :: (List.range (100 : Int).toNat).map (mkRecord (okEnv c) (transPath 0))))]
      (transPath 1) (Entry.csv (csvHeader :: (List.range (100 : Int).toNat).map (mkRecord (okEnv c) (transPath 1)))) =
      [(mainConfig.baseDir, Entry.dir),
       (docPath 0, Entry.text (c.paragraph (docPath 0))),
       (docPath 1, Entry.text (c.paragraph (docPath 1))),
       (docPath 2, Entry.text (c.paragraph (docPath 2))),
       (docPath 3, Entry.text (c.paragraph (docPath 3))),
       (docPath 4, Entry.text (c.paragraph (docPath 4))),
       (transPath 0, Entry.csv (csvHeader :: (List.range (100 : Int).toNat).map (mkRecord (okEnv c) (transPath 0)))),
       (transPath 1, Entry.csv (csvHeader :: (List.range (100 : Int).toNat).map (mkRecord (okEnv c) (transPath 1))))] := rfl
  have e9 : FS.set [(mainConfig.baseDir, Entry.dir),
       (docPath 0, Entry.text (c.paragraph (docPath 0))),
       (docPath 1, Entry.text (c.paragraph (docPath 1))),
       (docPath 2, Entry.text (c.paragraph (docPath 2))),
       (docPath 3, Entry.text (c.paragraph (docPath 3))),
       (docPath 4, Entry.text (c.paragraph (docPath 4))),
       (transPath 0, Entry.csv (csvHeader :: (List.range (100 : Int).toNat).map (mkRecord (okEnv c) (transPath 0)))),
       (transPath 1, Entry.csv (csvHeader :: (List.range (100 : Int).toNat).map (mkRecord (okEnv c) (transPath 1))))]
      (photoPath 0) (Entry.image ImgFormat.jpeg 640 480 true) =
      [(mainConfig.baseDir, Entry.dir),
       (docPath 0, Entry.text (c.paragraph (docPath 0))),
       (docPath 1, Entry.text (c.paragraph (docPath 1))),
       (docPath 2, Entry.text (c.paragraph (docPath 2))),
       (docPath 3, Entry.text (c.paragraph (docPath 3))),
       (docPath 4, Entry.text (c.paragraph (docPath 4))),
       (transPath 0, Entry.csv (csvHeader :: (List.range (100 : Int).toNat).map (mkRecord (okEnv c) (transPath 0)))),
       (transPath 1, Entry.csv (csvHeader :: (List.range (100 : Int).toNat).map (mkRecord (okEnv c) (transPath 1)))),
       (photoPath 0, Entry.image ImgFormat.jpeg 640 480 true)] := rfl
  have e10 : FS.set [(mainConfig.baseDir, Entry.dir),
       (docPath 0, Entry.text (c.paragraph (docPath 0))),
       (docPath 1, Entry.text (c.paragraph (docPath 1))),
       (docPath 2, Entry.text (c.paragraph (docPath 2))),
       (docPath 3, Entry.text (c.paragraph (docPath 3))),
       (docPath 4, Entry.text (c.paragraph (docPath 4))),
       (transPath 0, Entry.csv (csvHeader :: (List.range (100 : Int).toNat).map (mkRecord (okEnv c) (transPath 0)))),
       (transPath 1, Entry.csv (csvHeader :: (List.range (100 : Int).toNat).map (mkRecord (okEnv c) (transPath 1)))),
       (photoPath 0, Entry.image ImgFormat.jpeg 640 480 true)]
      (photoPath 1) (Entry.image ImgFormat.jpeg 640 480 true) =
      [(mainConfig.baseDir, Entry.dir),
       (docPath 0, Entry.text (c.paragraph (docPath 0))),
       (docPath 1, Entry.text (c.paragraph (docPath 1))),
       (docPath 2, Entry.text (c.paragraph (docPath 2))),
       (docPath 3, Entry.text (c.paragraph (docPath 3))),
       (docPath 4, Entry.text (c.paragraph (docPath 4))),
       (transPath 0, Entry.csv (csvHeader :: (List.range (100 : Int).toNat).map (mkRecord (okEnv c) (transPath 0)))),
       (transPath 1, Entry.csv (csvHeader :: (List.range (100 : Int).toNat).map (mkRecord (okEnv c) (transPath 1)))),
       (photoPath 0, Entry.image ImgFormat.jpeg 640 480 true),
       (photoPath 1, Entry.image ImgFormat.jpeg 640 480 true)] := rfl
  have e11 : FS.set [(mainConfig.baseDir, Entry.dir),
       (docPath 0, Entry.text (c.paragraph (docPath 0))),
       (docPath 1, Entry.text (c.paragraph (docPath 1))),
       (docPath 2, Entry.text (c.paragraph (docPath 2))),
       (docPath 3, Entry.text (c.paragraph (docPath 3))),
       (docPath 4, Entry.text (c.paragraph (docPath 4))),
       (transPath 0, Entry.csv (csvHeader :: (List.range (100 : Int).toNat).map (mkRecord (okEnv c) (transPath 0)))),
       (transPath 1, Entry.csv (csvHeader :: (List.range (100 : Int).toNat).map (mkRecord (okEnv c) (transPath 1)))),
       (photoPath 0, Entry.image ImgFormat.jpeg 640 480 true),
       (photoPath 1, Entry.image ImgFormat.jpeg 640 480 true)]
      (photoPath 2) (Entry.image ImgFormat.jpeg 640 480 true) =
      [(mainConfig.baseDir, Entry.dir),
       (docPath 0, Entry.text (c.paragraph (docPath 0))),
       (docPath 1, Entry.text (c.paragraph (docPath 1))),
       (docPath 2, Entry.text (c.paragraph (docPath 2))),
       (docPath 3, Entry.text (c.paragraph (docPath 3))),
       (docPath 4, Entry.text (c.paragraph (docPath 4))),
       (transPath 0, Entry.csv (csvHeader :: (List.range (100 : Int).toNat).map (mkRecord (okEnv c) (transPath 0)))),
       (transPath 1, Entry.csv (csvHeader :: (List.range (100 : Int).toNat).map (mkRecord (okEnv c) (transPath 1)))),
       (photoPath 0, Entry.image ImgFormat.jpeg 640 480 true),
       (photoPath 1, Entry.image ImgFormat.jpeg 640 480 true),
       (photoPath 2, Entry.image ImgFormat.jpeg 640 480 true)] := rfl
  have e12 : FS.set [(mainConfig.baseDir, Entry.dir),
       (docPath 0, Entry.text (c.paragraph (docPath 0))),
       (docPath 1, Entry.text (c.paragraph (docPath 1))),
       (docPath 2, Entry.text (c.paragraph (docPath 2))),
       (docPath 3, Entry.text (c.paragraph (docPath 3))),
       (docPath 4, Entry.text (c.paragraph (docPath 4))),
       (transPath 0, Entry.csv (csvHeader :: (List.range (100 : Int).toNat).map (mkRecord (okEnv c) (transPath 0)))),
       (transPath 1, Entry.csv (csvHeader :: (List.range (100 : Int).toNat).map (mkRecord (okEnv c) (transPath 1)))),
       (photoPath 0, Entry.image ImgFormat.jpeg 640 480 true),
       (photoPath 1, Entry.image ImgFormat.jpeg 640 480 true),
       (photoPath 2, Entry.image ImgFormat.jpeg 640 480 true)]
      (subPath 0) (Entry.dir) =
      [(mainConfig.baseDir, Entry.dir),
       (docPath 0, Entry.text (c.paragraph (docPath 0))),
       (docPath 1, Entry.text (c.paragraph (docPath 1))),
       (docPath 2, Entry.text (c.paragraph (docPath 2))),
       (docPath 3, Entry.text (c.paragraph (docPath 3))),
       (docPath 4, Entry.text (c.paragraph (docPath 4))),
       (transPath 0, Entry.csv (csvHeader :: (List.range (100 : Int).toNat).map (mkRecord (okEnv c) (transPath 0)))),
       (transPath 1, Entry.csv (csvHeader :: (List.range (100 : Int).toNat).map (mkRecord (okEnv c) (transPath 1)))),
       (photoPath 0, Entry.image ImgFormat.jpeg 640 480 true),
       (photoPath 1, Entry.image ImgFormat.jpeg 640 480 true),
       (photoPath 2, Entry.image ImgFormat.jpeg 640 480 true),
       (subPath 0, Entry.dir)] := rfl
  have e13 : FS.set [(mainConfig.baseDir, Entry.dir),
       (docPath 0, Entry.text (c.paragraph (docPath 0))),
       (docPath 1, Entry.text (c.paragraph (docPath 1))),
       (docPath 2, Entry.text (c.paragraph (docPath 2))),
       (docPath 3, Entry.text (c.paragraph (docPath 3))),
       (docPath 4, Entry.text (c.paragraph (docPath 4))),
       (transPath 0, Entry.csv (csvHeader :: (List.range (100 : Int).toNat).map (mkRecord (okEnv c) (transPath 0)))),
       (transPath 1, Entry.csv (csvHeader :: (List.range (100 : Int).toNat).map (mkRecord (okEnv c) (transPath 1)))),
       (photoPath 0, Entry.image ImgFormat.jpeg 640 480 true),
       (photoPath 1, Entry.image ImgFormat.jpeg 640 480 true),
       (photoPath 2, Entry.image ImgFormat.jpeg 640 480 true),
       (subPath 0, Entry.dir)]
      (notePath 0) (Entry.text (c.notePhrase (notePath 0))) =
      [(mainConfig.baseDir, Entry.dir),
       (docPath 0, Entry.text (c.paragraph (docPath 0))),
       (docPath 1, Entry.text (c.paragraph (docPath 1))),
       (docPath 2, Entry.text (c.paragraph (docPath 2))),
       (docPath 3, Entry.text (c.paragraph (docPath 3))),
       (docPath 4, Entry.text (c.paragraph (docPath 4))),
       (transPath 0, Entry.csv (csvHeader :: (List.range (100 : Int).toNat).map (mkRecord (okEnv c) (transPath 0)))),
       (transPath 1, Entry.csv (csvHeader :: (List.range (100 : Int).toNat).map (mkRecord (okEnv c) (transPath 1)))),
       (photoPath 0, Entry.image ImgFormat.jpeg 640 480 true),
       (photoPath 1, Entry.image ImgFormat.jpeg 640 480 true),
       (photoPath 2, Entry.image ImgFormat.jpeg 640 480 true),
       (subPath 0, Entry.dir),
       (notePath 0, Entry.text (c.notePhrase (notePath 0)))] := rfl
  have e14 : FS.set [(mainConfig.baseDir, Entry.dir),
       (docPath 0, Entry.text (c.paragraph (docPath 0))),
       (docPath 1, Entry.text (c.paragraph (docPath 1))),
       (docPath 2, Entry.text (c.paragraph (docPath 2))),
       (docPath 3, Entry.text (c.paragraph (docPath 3))),
       (docPath 4, Entry.text (c.paragraph (docPath 4))),
       (transPath 0, Entry.csv (csvHeader :: (List.range (100 : Int).toNat).map (mkRecord (okEnv c) (transPath 0)))),
       (transPath 1, Entry.csv (csvHeader :: (List.range (100 : Int).toNat).map (mkRecord (okEnv c) (transPath 1)))),
       (photoPath 0, Entry.image ImgFormat.jpeg 640 480 true),
       (photoPath 1, Entry.image ImgFormat.jpeg 640 480 true),
       (photoPath 2, Entry.image ImgFormat.jpeg 640 480 true),
       (subPath 0, Entry.dir),
       (notePath 0, Entry.text (c.notePhrase (notePath 0)))]
      (thumbPath 0) (Entry.image ImgFormat.png 100 100 true) =
      [(mainConfig.baseDir, Entry.dir),
       (docPath 0, Entry.text (c.paragraph (docPath 0))),
       (docPath 1, Entry.text (c.paragraph (docPath 1))),
       (docPath 2, Entry.text (c.paragraph (docPath 2))),
       (docPath 3, Entry.text (c.paragraph (docPath 3))),
       (docPath 4, Entry.text (c.paragraph (docPath 4))),
       (transPath 0, Entry.csv (csvHeader :: (List.range (100 : Int).toNat).map (mkRecord (okEnv c) (transPath 0)))),
       (transPath 1, Entry.csv (csvHeader :: (List.range (100 : Int).toNat).map (mkRecord (okEnv c) (transPath 1)))),
       (photoPath 0, Entry.image ImgFormat.jpeg 640 480 true),
       (photoPath 1, Entry.image ImgFormat.jpeg 640 480 true),
       (photoPath 2, Entry.image ImgFormat.jpeg 640 480 true),
       (subPath 0, Entry.dir),
       (notePath 0, Entry.text (c.notePhrase (notePath 0))),
       (thumbPath 0, Entry.image ImgFormat.png 100 100 true)] := rfl
  have e15 : FS.set [(mainConfig.baseDir, Entry.dir),
       (docPath 0, Entry.text (c.paragraph (docPath 0))),
       (docPath 1, Entry.text (c.paragraph (docPath 1))),
       (docPath 2, Entry.text (c.paragraph (docPath 2))),
       (docPath 3, Entry.text (c.paragraph (docPath 3))),
       (docPath 4, Entry.text (c.paragraph (docPath 4))),
       (transPath 0, Entry.csv (csvHeader :: (List.range (100 : Int).toNat).map (mkRecord (okEnv c) (transPath 0)))),
       (transPath 1, Entry.csv (csvHeader :: (List.range (100 : Int).toNat).map (mkRecord (okEnv c) (transPath 1)))),
       (photoPath 0, Entry.image ImgFormat.jpeg 640 480 true),
       (photoPath 1, Entry.image ImgFormat.jpeg 640 480 true),
       (photoPath 2, Entry.image ImgFormat.jpeg 640 480 true),
       (subPath 0, Entry.dir),
       (notePath 0, Entry.text (c.notePhrase (notePath 0))),
       (thumbPath 0, Entry.image ImgFormat.png 100 100 true)]
      (subPath 1) (Entry.dir) =
      [(mainConfig.baseDir, Entry.dir),
       (docPath 0, Entry.text (c.paragraph (docPath 0))),
       (docPath 1, Entry.text (c.paragraph (docPath 1))),
       (docPath 2, Entry.text (c.paragraph (docPath 2))),
       (docPath 3, Entry.text (c.paragraph (docPath 3))),
       (docPath 4, Entry.text (c.paragraph (docPath 4))),
       (transPath 0, Entry.csv (csvHeader :: (List.range (100 : Int).toNat).map (mkRecord (okEnv c) (transPath 0)))),
       (transPath 1, Entry.csv (csvHeader :: (List.range (100 : Int).toNat).map (mkRecord (okEnv c) (transPath 1)))),
       (photoPath 0, Entry.image ImgFormat.jpeg 640 480 true),
       (photoPath 1, Entry.image ImgFormat.jpeg 640 480 true),
       (photoPath 2, Entry.image ImgFormat.jpeg 640 480 true),
       (subPath 0, Entry.dir),
       (notePath 0, Entry.text (c.notePhrase (notePath 0))),
       (thumbPath 0, Entry.image ImgFormat.png 100 100 true),
       (subPath 1, Entry.dir)] := rfl
  have e16 : FS.set [(mainConfig.baseDir, Entry.dir),
       (docPath 0, Entry.text (c.paragraph (docPath 0))),
       (docPath 1, Entry.text (c.paragraph (docPath 1))),
       (docPath 2, Entry.text (c.paragraph (docPath 2))),
       (docPath 3, Entry.text (c.paragraph (docPath 3))),
       (docPath 4, Entry.text (c.paragraph (docPath 4))),
       (transPath 0, Entry.csv (csvHeader :: (List.range (100 : Int).toNat).map (mkRecord (okEnv c) (transPath 0)))),
       (transPath 1, Entry.csv (csvHeader :: (List.range (100 : Int).toNat).map (mkRecord (okEnv c) (transPath 1)))),
       (photoPath 0, Entry.image ImgFormat.jpeg 640 480 true),
       (photoPath 1, Entry.image ImgFormat.jpeg 640 480 true),
       (photoPath 2, Entry.image ImgFormat.jpeg 640 480 true),
       (subPath 0, Entry.dir),
       (notePath 0, Entry.text (c.notePhrase (notePath 0))),
       (thumbPath 0, Entry.image ImgFormat.png 100 100 true),
       (subPath 1, Entry.dir)]
      (notePath 1) (Entry.text (c.notePhrase (notePath 1))) =
      [(mainConfig.baseDir, Entry.dir),
       (docPath 0, Entry.text (c.paragraph (docPath 0))),
       (docPath 1, Entry.text (c.paragraph (docPath 1))),
       (docPath 2, Entry.text (c.paragraph (docPath 2))),
       (docPath 3, Entry.text (c.paragraph (docPath 3))),
       (docPath 4, Entry.text (c.paragraph (docPath 4))),
       (transPath 0, Entry.csv (csvHeader :: (List.range (100 : Int).toNat).map (mkRecord (okEnv c) (transPath 0)))),
       (transPath 1, Entry.csv (csvHeader :: (List.range (100 : Int).toNat).map (mkRecord (okEnv c) (transPath 1)))),
       (photoPath 0, Entry.image ImgFormat.jpeg 640 480 true),
       (photoPath 1, Entry.image ImgFormat.jpeg 640 480 true),
       (photoPath 2, Entry.image ImgFormat.jpeg 640 480 true),
       (subPath 0, Entry.dir),
       (notePath 0, Entry.text (c.notePhrase (notePath 0))),
       (thumbPath 0, Entry.image ImgFormat.png 100 100 true),
       (subPath 1, Entry.dir),
       (notePath 1, Entry.text (c.notePhrase (notePath 1)))] := rfl
  have e17 : FS.set [(mainConfig.baseDir, Entry.dir),
       (docPath 0, Entry.text (c.paragraph (docPath 0))),
       (docPath 1, Entry.text (c.paragraph (docPath 1))),
       (docPath 2, Entry.text (c.paragraph (docPath 2))),
       (docPath 3, Entry.text (c.paragraph (docPath 3))),
       (docPath 4, Entry.text (c.paragraph (docPath 4))),
       (transPath 0, Entry.csv (csvHeader :: (List.range (100 : Int).toNat).map (mkRecord (okEnv c) (transPath 0)))),
       (transPath 1, Entry.csv (csvHeader :: (List.range (100 : Int).toNat).map (mkRecord (okEnv c) (transPath 1)))),
       (photoPath 0, Entry.image ImgFormat.jpeg 640 480 true),
       (photoPath 1, Entry.image ImgFormat.jpeg 640 480 true),
       (photoPath 2, Entry.image ImgFormat.jpeg 640 480 true),
       (subPath 0, Entry.dir),
       (notePath 0, Entry.text (c.notePhrase (notePath 0))),
       (thumbPath 0, Entry.image ImgFormat.png 100 100 true),
       (subPath 1, Entry.dir),
       (notePath 1, Entry.text (c.notePhrase (notePath 1)))]
      (thumbPath 1) (Entry.image ImgFormat.png 100 100 true) =
      [(mainConfig.baseDir, Entry.dir),
       (docPath 0, Entry.text (c.paragraph (docPath 0))),
       (docPath 1, Entry.text (c.paragraph (docPath 1))),
       (docPath 2, Entry.text (c.paragraph (docPath 2))),
       (docPath 3, Entry.text (c.paragraph (docPath 3))),
       (docPath 4, Entry.text (c.paragraph (docPath 4))),
       (transPath 0, Entry.csv (csvHeader :: (List.range (100 : Int).toNat).map (mkRecord (okEnv c) (transPath 0)))),
       (transPath 1, Entry.csv (csvHeader :: (List.range (100 : Int).toNat).map (mkRecord (okEnv c) (transPath 1)))),
       (photoPath 0, Entry.image ImgFormat.jpeg 640 480 true),
       (photoPath 1, Entry.image ImgFormat.jpeg 640 480 true),
       (photoPath 2, Entry.image ImgFormat.jpeg 640 480 true),
       (subPath 0, Entry.dir),
       (notePath 0, Entry.text (c.notePhrase (notePath 0))),
       (thumbPath 0, Entry.image ImgFormat.png 100 100 true),
       (subPath 1, Entry.dir),
       (notePath 1, Entry.text (c.notePhrase (notePath 1))),
       (thumbPath 1, Entry.image ImgFormat.png 100 100 true)] := rfl
  rw [e1]
  rw [e2]
  rw [e3]
  rw [e4]
  rw [e5]
  rw [e6]
  rw [e7]
  rw [e8]
  rw [e9]
  rw [e10]
  rw [e11]
  rw [e12]
  rw [e13]
  rw [e14]
  rw [e15]
  rw [e16]
  rw [e17]
  rfl

set_option maxHeartbeats 1000000 in
/-- C1: with the fixed configuration (TextFiles 5, CsvFiles 2,
ImageFiles 3, SubDirs 2), a run of generateMockData in which every I/O
operation succeeds, started on an empty filesystem, returns no error
and produces exactly ten files directly under the base directory
(document_0..4.txt, transactions_0..1.csv, photo_0..2.jpg) plus
exactly the two subdirectories internal_data_0 and internal_data_1,
each containing exactly secret_note.md and thumb.png; the trailing
conjuncts pin each path definition to its literal name. -/
theorem c1_layout (c : EnvContent) :
    (generateMockData (okEnv c) mainConfig ⟨[], []⟩ =
      (Except.ok (),
       ⟨[(mainConfig.baseDir, Entry.dir),
         (docPath 0, Entry.text (c.paragraph (docPath 0))),
         (docPath 1, Entry.text (c.paragraph (docPath 1))),
         (docPath 2, Entry.text (c.paragraph (docPath 2))),
         (docPath 3, Entry.text (c.paragraph (docPath 3))),
         (docPath 4, Entry.text (c.paragraph (docPath 4))),
         (transPath 0, Entry.csv (csvHeader :: (List.range 100).map (mkRecord (okEnv c) (transPath 0)))),
         (transPath 1, Entry.csv (csvHeader :: (List.range 100).map (mkRecord (okEnv c) (transPath 1)))),
         (photoPath 0, Entry.image ImgFormat.jpeg 640 480 true),
         (photoPath 1, Entry.image ImgFormat.jpeg 640 480 true),
         (photoPath 2, Entry.image ImgFormat.jpeg 640 480 true),
         (subPath 0, Entry.dir),
         (notePath 0, Entry.text (c.notePhrase (notePath 0))),
         (thumbPath 0, Entry.image ImgFormat.png 100 100 true),
         (subPath 1, Entry.dir),
         (notePath 1, Entry.text (c.notePhrase (notePath 1))),
         (thumbPath 1, Entry.image ImgFormat.png 100 100 true)],
        []⟩))
    ∧ mainConfig.baseDir = ["..", "..", "mock_data"]
    ∧ docPath 0 = ["..", "..", "mock_data", "document_0.txt"]
    ∧ docPath 1 = ["..", "..", "mock_data", "document_1.txt"]
    ∧ docPath 2 = ["..", "..", "mock_data", "document_2.txt"]
    ∧ docPath 3 = ["..", "..", "mock_data", "document_3.txt"]
    ∧ docPath 4 = ["..", "..", "mock_data", "document_4.txt"]
    ∧ transPath 0 = ["..", "..", "mock_data", "transactions_0.csv"]
    ∧ transPath 1 = ["..", "..", "mock_data", "transactions_1.csv"]
    ∧ photoPath 0 = ["..", "..", "mock_data", "photo_0.jpg"]
    ∧ photoPath 1 = ["..", "..", "mock_data", "photo_1.jpg"]
    ∧ photoPath 2 = ["..", "..", "mock_data", "photo_2.jpg"]
    ∧ subPath 0 = ["..", "..", "mock_data", "internal_data_0"]
    ∧ subPath 1 = ["..", "..", "mock_data", "internal_data_1"]
    ∧ notePath 0 = ["..", "..", "mock_data", "internal_data_0", "secret_note.md"]
    ∧ notePath 1 = ["..", "..", "mock_data", "internal_data_1", "secret_note.md"]
    ∧ thumbPath 0 = ["..", "..", "mock_data", "internal_data_0", "thumb.png"]
    ∧ thumbPath 1 = ["..", "..", "mock_data", "internal_data_1", "thumb.png"] := by
  refine ⟨?_, rfl, rfl, rfl, rfl, rfl, rfl, rfl, rfl, rfl, rfl, rfl, rfl, rfl, rfl, rfl, rfl, rfl⟩
  rw [gen_okEnv]
  refine congrArg (Prod.mk (Except.ok ())) ?_
  calc happyRun (okEnv c) ⟨[], []⟩
      = ⟨runFS c ([] : FS), (happyRun (okEnv c) ⟨[], []⟩).out⟩ := rfl
    _ = _ := by rw [runFS_nil c, happy_out_ok c ⟨[], []⟩]

/-- C2: a CSV file written by writeCSVFile with rows = 100, when the
create call and every record write succeed, holds exactly 101 records
(lines): the header UserID, Timestamp, Amount, Description followed by
exactly 100 data rows of exactly 4 comma-separated fields each, with
no trailing metadata.  (CSV records are modelled at the record level;
no generated field contains a line break.) -/
theorem c2_csv_shape (c : EnvContent) (p : FPath) (st : St) :
    ((writeCSVFile (okEnv c) p 100 st).fs.get p
        = some (Entry.csv (csvHeader :: (List.range 100).map (mkRecord (okEnv c) p))))
    ∧ csvHeader = ["UserID", "Timestamp", "Amount", "Description"]
    ∧ (csvHeader :: (List.range 100).map (mkRecord (okEnv c) p)).length = 101
    ∧ (∀ r ∈ csvHeader :: (List.range 100).map (mkRecord (okEnv c) p), r.length = 4) := by
  refine ⟨?_, rfl, by simp, ?_⟩
  · rw [writeCSVFile_none 100 st (okEnv_createErr c p)]
    show (st.fs.set p (Entry.csv (csvContent (okEnv c) p 100))).get p = _
    rw [get_set_self, csvContent_of_ok _ _ _ (fun i => rfl)]
    rfl
  · intro r hr
    rcases List.mem_cons.mp hr with hr | hr
    · subst hr; rfl
    · rcases List.mem_map.mp hr with ⟨i, _, hi⟩
      rw [← hi]
      rfl

/-- C7: running generateMockData twice in succession against the same
base directory (all I/O succeeding in both runs) leaves exactly the
second run's file set: the filesystem after the two runs equals the
one the second run alone produces from the original state, because the
base directory is recursively deleted and rebuilt at the start of
every run, so nothing the first run created survives. -/
theorem c7_idempotent_rebuild (ca cb : EnvContent) (st : St) :
    (generateMockData (okEnv cb) mainConfig (generateMockData (okEnv ca) mainConfig st).2).2.fs
      = (generateMockData (okEnv cb) mainConfig st).2.fs := by
  rw [gen_fs, gen_fs, gen_fs, runFS_removeAll, removeAll_removeAll]

set_option maxHeartbeats 1000000 in
/-- C3: per-file write failures are logged to standard output and
swallowed, directory-creation failures abort: (a) when the os.WriteFile
call for document_0.txt fails, the run still returns no error and the
failure message is appended to standard output; (b) likewise when the
os.Create call for photo_0.jpg fails; (c) a failure to create the base
directory immediately aborts the run, returning the error; (d) a
failure to create the internal_data_0 subdirectory aborts the run at
that point, returning the error, with nothing printed. -/
theorem c3_error_asymmetry (c : EnvContent) (e : String) (st : St) :
    ((generateMockData (envTextFail c (docPath 0) e) mainConfig st).1 = Except.ok ()
      ∧ (generateMockData (envTextFail c (docPath 0) e) mainConfig st).2.out
          = st.out ++ ["Error writing text file " ++ pathStr (docPath 0) ++ ": " ++ e])
    ∧ ((generateMockData (envCreateFail c (photoPath 0) e) mainConfig st).1 = Except.ok ()
      ∧ (generateMockData (envCreateFail c (photoPath 0) e) mainConfig st).2.out
          = st.out ++ ["Error creating image file " ++ pathStr (photoPath 0) ++ ": " ++ e])
    ∧ (generateMockData (envMkdirFail c mainConfig.baseDir e) mainConfig st
        = (Except.error e, ⟨st.fs.removeAll mainConfig.baseDir, st.out⟩))
    ∧ ((generateMockData (envMkdirFail c (subPath 0) e) mainConfig st).1 = Except.error e
      ∧ (generateMockData (envMkdirFail c (subPath 0) e) mainConfig st).2.out = st.out) := by
  refine ⟨⟨?_, ?_⟩, ⟨?_, ?_⟩, gen_envMkdirFail_base c e st, ?_, ?_⟩
  · rw [gen_envTextFail]
  · rw [gen_envTextFail]
    have n1 := envTextFail_not_at c (docPath 0) (docPath 1) e (by decide)
    have n2 := envTextFail_not_at c (docPath 0) (docPath 2) e (by decide)
    have n3 := envTextFail_not_at c (docPath 0) (docPath 3) e (by decide)
    have n4 := envTextFail_not_at c (docPath 0) (docPath 4) e (by decide)
    have n5 := envTextFail_not_at c (docPath 0) (notePath 0) e (by decide)
    have n6 := envTextFail_not_at c (docPath 0) (notePath 1) e (by decide)
    simp only [happyRun, topRun, writeTextFile, writeCSVFile, writeImageFile,
      envTextFail_at, n1, n2, n3, n4, n5, n6, envTextFail_createErr, envTextFail_encodeErr]
  · rw [gen_envCreateFail]
  · rw [gen_envCreateFail]
    have n1 := envCreateFail_not_at c (photoPath 0) (transPath 0) e (by decide)
    have n2 := envCreateFail_not_at c (photoPath 0) (transPath 1) e (by decide)
    have n3 := envCreateFail_not_at c (photoPath 0) (photoPath 1) e (by decide)
    have n4 := envCreateFail_not_at c (photoPath 0) (photoPath 2) e (by decide)
    have n5 := envCreateFail_not_at c (photoPath 0) (thumbPath 0) e (by decide)
    have n6 := envCreateFail_not_at c (photoPath 0) (thumbPath 1) e (by decide)
    simp only [happyRun, topRun, writeTextFile, writeCSVFile, writeImageFile,
      envCreateFail_at, n1, n2, n3, n4, n5, n6, envCreateFail_writeFileErr, envCreateFail_encodeErr]
  · rw [gen_envMkdirFail_sub]
  · rw [gen_envMkdirFail_sub]
    simp only [topRun, writeTextFile, writeCSVFile, writeImageFile,
      envMkdirFail_writeFileErr, envMkdirFail_createErr]

/-- C4: the process exits 0 when generateMockData returns no error; a
failure of the recursive removal, or of the fresh creation, of the
base output directory makes the process exit 1 after printing a FATAL
Error message to standard output; the error propagates from
generateMockData to main unchanged, and no partial-state cleanup is
attempted (after a failed recreation the filesystem still reflects the
completed removal). -/
theorem c4_exit_codes (c : EnvContent) (e : String) (fs : FS) (st : St) :
    ((mainGo (okEnv c) fs).1 = 0)
    ∧ (mainGo (envRemoveAllFail c e) fs
        = (1, ⟨fs, ["--- Generating Mock Data in '" ++ pathStr mainConfig.baseDir ++ "' ---"]
                 ++ ["FATAL Error: " ++ e]⟩))
    ∧ (mainGo (envMkdirFail c mainConfig.baseDir e) fs
        = (1, ⟨fs.removeAll mainConfig.baseDir,
               ["--- Generating Mock Data in '" ++ pathStr mainConfig.baseDir ++ "' ---"]
                 ++ ["FATAL Error: " ++ e]⟩))
    ∧ (generateMockData (envRemoveAllFail c e) mainConfig st = (Except.error e, st))
    ∧ (generateMockData (envMkdirFail c mainConfig.baseDir e) mainConfig st
        = (Except.error e, ⟨st.fs.removeAll mainConfig.baseDir, st.out⟩)) :=
  ⟨by rw [mainGo_okEnv], mainGo_envRemoveAllFail c e fs, mainGo_envMkdirFail_base c e fs,
    gen_envRemoveAllFail c e st, gen_envMkdirFail_base c e st⟩

set_option maxHeartbeats 1000000 in
/-- C8: errors from image encoding (png.Encode, jpeg.Encode) and from
csv.Writer.Write are discarded without being logged: when the encode
for photo_0.jpg fails the run prints nothing, still returns no error
and exits 0, and the file exists but is incomplete; when the write of
data record index 4 of transactions_0.csv fails, that record is
silently missing from the otherwise complete file, and the process
still exits 0. -/
theorem c8_silent_encode_csv_errors (c : EnvContent) (e : String) (st : St) :
    ((generateMockData (envEncodeFail c (photoPath 0) e) mainConfig st).1 = Except.ok ()
      ∧ (generateMockData (envEncodeFail c (photoPath 0) e) mainConfig st).2.out = st.out
      ∧ (generateMockData (envEncodeFail c (photoPath 0) e) mainConfig st).2.fs.get (photoPath 0)
          = some (Entry.image ImgFormat.jpeg 640 480 false)
      ∧ (mainGo (envEncodeFail c (photoPath 0) e) st.fs).1 = 0)
    ∧ ((generateMockData (envCsvWriteFail c (transPath 0) 5) mainConfig st).1 = Except.ok ()
      ∧ (generateMockData (envCsvWriteFail c (transPath 0) 5) mainConfig st).2.out = st.out
      ∧ (generateMockData (envCsvWriteFail c (transPath 0) 5) mainConfig st).2.fs.get (transPath 0)
          = some (Entry.csv (csvHeader :: (List.range 100).filterMap
              (fun i => if i = 4 then none
                else some (mkRecord (envCsvWriteFail c (transPath 0) 5) (transPath 0) i))))
      ∧ (mainGo (envCsvWriteFail c (transPath 0) 5) st.fs).1 = 0) := by
  refine ⟨⟨?_, ?_, ?_, mainGo_envEncodeFail c (photoPath 0) e st.fs⟩,
          ⟨?_, ?_, ?_, mainGo_envCsvWriteFail c (transPath 0) 5 st.fs⟩⟩
  · rw [gen_envEncodeFail]
  · rw [gen_envEncodeFail]
    simp only [happyRun, topRun, writeTextFile, writeCSVFile, writeImageFile,
      envEncodeFail_writeFileErr, envEncodeFail_createErr]
  · rw [gen_envEncodeFail]
    simp only [happyRun, topRun, writeTextFile, writeCSVFile, writeImageFile,
      envEncodeFail_writeFileErr, envEncodeFail_createErr, envEncodeFail_at,
      get_set_ne2 (thumbPath 1) (photoPath 0) (by decide),
      get_set_ne2 (notePath 1) (photoPath 0) (by decide),
      get_set_ne2 (subPath 1) (photoPath 0) (by decide),
      get_set_ne2 (thumbPath 0) (photoPath 0) (by decide),
      get_set_ne2 (notePath 0) (photoPath 0) (by decide),
      get_set_ne2 (subPath 0) (photoPath 0) (by decide),
      get_set_ne2 (photoPath 2) (photoPath 0) (by decide),
      get_set_ne2 (photoPath 1) (photoPath 0) (by decide),
      get_set_self]
    rfl
  · rw [gen_envCsvWriteFail]
  · rw [gen_envCsvWriteFail]
    simp only [happyRun, topRun, writeTextFile, writeCSVFile, writeImageFile,
      envCsvWriteFail_writeFileErr, envCsvWriteFail_createErr]
  · rw [gen_envCsvWriteFail]
    have hcc : csvContent (envCsvWriteFail c (transPath 0) 5) (transPath 0) 100
        = csvHeader :: (List.range 100).filterMap
            (fun i => if i = 4 then none
              else some (mkRecord (envCsvWriteFail c (transPath 0) 5) (transPath 0) i)) := by
      unfold csvContent
      have hh : (envCsvWriteFail c (transPath 0) 5).csvWriteErr (transPath 0) 0 = false := rfl
      have hfun : (fun i => if (envCsvWriteFail c (transPath 0) 5).csvWriteErr (transPath 0) (i + 1)
              then none else some (mkRecord (envCsvWriteFail c (transPath 0) 5) (transPath 0) i))
          = (fun i => if i = 4 then none
              else some (mkRecord (envCsvWriteFail c (transPath 0) 5) (transPath 0) i)) := by
        funext i
        show (if decide (transPath 0 = transPath 0 ∧ i + 1 = 5) = true then none else _) = _
        by_cases h : i = 4
        · subst h
          rw [if_pos (by decide), if_pos rfl]
        · rw [if_neg ?_, if_neg h]
          simp only [decide_eq_true_eq, not_and]
          intro _ h5
          exact h (by omega)
      rw [hh, hfun]
      rfl
    simp only [happyRun, topRun, writeTextFile, writeCSVFile, writeImageFile,
      envCsvWriteFail_writeFileErr, envCsvWriteFail_createErr,
      get_set_ne2 (thumbPath 1) (transPath 0) (by decide),
      get_set_ne2 (notePath 1) (transPath 0) (by decide),
      get_set_ne2 (subPath 1) (transPath 0) (by decide),
      get_set_ne2 (thumbPath 0) (transPath 0) (by decide),
      get_set_ne2 (notePath 0) (transPath 0) (by decide),
      get_set_ne2 (subPath 0) (transPath 0) (by decide),
      get_set_ne2 (photoPath 2) (transPath 0) (by decide),
      get_set_ne2 (photoPath 1) (transPath 0) (by decide),
      get_set_ne2 (photoPath 0) (transPath 0) (by decide),
      get_set_ne2 (transPath 1) (transPath 0) (by decide),
      get_set_self, hcc]

theorem okEnv_removeAllErr (c : EnvContent) (p : FPath) : (okEnv c).removeAllErr p = none := rfl
theorem okEnv_mkdirErr (c : EnvContent) (p : FPath) : (okEnv c).mkdirErr p = none := rfl

theorem dateLe_of_timeLe {a b : Time} (h : timeLe a b) : dateLe a.date b.date := by
  rcases h with h | ⟨h, _⟩
  · rcases h with h1 | ⟨h1, h2 | ⟨h2, h3⟩⟩
    · exact Or.inl h1
    · exact Or.inr ⟨h1, Or.inl h2⟩
    · exact Or.inr ⟨h1, Or.inr ⟨h2, le_of_lt h3⟩⟩
  · rw [h]
    exact Or.inr ⟨rfl, Or.inr ⟨rfl, le_refl _⟩⟩

/-- C5: the Amount field of every generated CSV data row is the
formatting, with two decimal places, of the gofakeit.Float64Range(1.0,
1000.0) value drawn for that row; modelling the drawn float as a
rational in [1, 1000] (the library contract at these arguments), the
formatted field parses back as a decimal number, namely the cent
rounding of the drawn value, and lies in [1.00, 1000.00]. -/
theorem c5_amount_field (env : Env) (p : FPath) (i : Nat) (x : ℚ)
    (hx : env.amount p i = x) (h1 : 1 ≤ x) (h2 : x ≤ 1000) :
    (mkRecord env p i)[2]? = some (fmtF2 x)
    ∧ parseF2 (fmtF2 x) = some (round2 x)
    ∧ 1 ≤ round2 x ∧ round2 x ≤ 1000 := by
  refine ⟨?_, parseF2_fmtF2 h1, (round2_bounds h1 h2).1, (round2_bounds h1 h2).2⟩
  simp [mkRecord, hx]

/-- Witness for C5 at a concrete run and value. -/
theorem c5_amount_field_witness :
    (mkRecord (okEnv constContent) [] 0)[2]? = some (fmtF2 (3 / 2))
    ∧ parseF2 (fmtF2 (3 / 2)) = some (round2 (3 / 2))
    ∧ 1 ≤ round2 ((3 : ℚ) / 2) ∧ round2 ((3 : ℚ) / 2) ≤ 1000 :=
  c5_amount_field (okEnv constContent) [] 0 (3 / 2) rfl (by norm_num) (by norm_num)

/-- C6: the Timestamp field of every generated CSV data row is the
2006-01-02 formatting of the gofakeit.DateRange(now.AddDate(0, -6, 0),
now) instant drawn for that row; under the library contract that the
drawn instant lies between those bounds, and for civil-valid field
values, the YYYY-MM-DD string parses back to exactly that date, which
is not before the date six months prior to the run date and not after
the run date. -/
theorem c6_timestamp_field (env : Env) (p : FPath) (i : Nat) (t : Time)
    (ht : env.dateRange p i = t)
    (hlo : timeLe (addMonthsTime env.now (-6)) t) (hhi : timeLe t env.now)
    (hy : 0 ≤ t.date.year) (hm : 0 ≤ t.date.month) (hd : 0 ≤ t.date.day) :
    (mkRecord env p i)[1]? = some (fmtDate t.date)
    ∧ parseDate (fmtDate t.date) = some t.date
    ∧ dateLe (addMonthsTime env.now (-6)).date t.date
    ∧ dateLe t.date env.now.date := by
  refine ⟨?_, parseDate_fmtDate hy hm hd, dateLe_of_timeLe hlo, dateLe_of_timeLe hhi⟩
  simp [mkRecord, ht]

/-- Witness for C6 at a concrete run and instant. -/
theorem c6_timestamp_field_witness :
    (mkRecord (okEnv constContent) [] 0)[1]? = some (fmtDate ⟨2026, 7, 1⟩)
    ∧ parseDate (fmtDate ⟨2026, 7, 1⟩) = some ⟨2026, 7, 1⟩
    ∧ dateLe (addMonthsTime (okEnv constContent).now (-6)).date ⟨2026, 7, 1⟩
    ∧ dateLe ⟨2026, 7, 1⟩ (okEnv constContent).now.date :=
  c6_timestamp_field (okEnv constContent) [] 0 ⟨⟨2026, 7, 1⟩, 0⟩ rfl
    (by decide) (by decide) (by decide) (by decide) (by decide)

set_option maxHeartbeats 1000000 in
/-- C9: writeImageFile chooses the output encoding solely from the
path's file extension: the written entry is PNG exactly when
filepath.Ext of the path is .png and JPEG for every other path
(including .jpeg and extension-less names), always at the width and
height passed by the caller; in a full run the caller passes 640x480
for top-level photos and 100x100 for thumbnails. -/
theorem c9_image_extension (env : Env) (p : FPath) (w hgt : Int) (st : St) (c : EnvContent)
    (hc : env.createErr p = none) :
    ((writeImageFile env p w hgt st).fs.get p
        = some (Entry.image (if goExt p = ".png" then ImgFormat.png else ImgFormat.jpeg)
            w.toNat hgt.toNat (env.encodeErr p).isNone))
    ∧ goExt ["pic.png"] = ".png" ∧ goExt ["pic.jpeg"] = ".jpeg" ∧ goExt ["pic"] = ""
    ∧ (generateMockData (okEnv c) mainConfig ⟨[], []⟩).2.fs.get (photoPath 0)
        = some (Entry.image ImgFormat.jpeg 640 480 true)
    ∧ (generateMockData (okEnv c) mainConfig ⟨[], []⟩).2.fs.get (thumbPath 1)
        = some (Entry.image ImgFormat.png 100 100 true) := by
  have hlit : (generateMockData (okEnv c) mainConfig ⟨[], []⟩).2.fs = runFS c ([] : FS) := gen_fs c _
  refine ⟨?_, rfl, rfl, rfl, ?_, ?_⟩
  · rw [writeImageFile_none w hgt st hc, get_set_self]
  · rw [hlit, runFS_nil c]
    rfl
  · rw [hlit, runFS_nil c]
    rfl

/-- Witness for C9 at a concrete path and environment. -/
theorem c9_image_extension_witness :
    (writeImageFile (okEnv constContent) ["pic.png"] 7 9 ⟨[], []⟩).fs.get ["pic.png"]
      = some (Entry.image ImgFormat.png 7 9 true) :=
  ((c9_image_extension (okEnv constContent) ["pic.png"] 7 9 ⟨[], []⟩ constContent rfl).1).trans rfl

/-- C10: a zero or negative value in any of the four count fields just
makes the corresponding generation loop run zero times: with all four
counts nonpositive, generateMockData still succeeds and leaves a
freshly recreated, empty base directory. -/
theorem c10_nonpositive_counts (c : EnvContent) (base : FPath) (t cv im sd : Int) (st : St)
    (ht : t ≤ 0) (hcv : cv ≤ 0) (him : im ≤ 0) (hsd : sd ≤ 0) :
    generateMockData (okEnv c) ⟨base, t, cv, im, sd⟩ st
      = (Except.ok (), ⟨(st.fs.removeAll base).set base Entry.dir, st.out⟩) := by
  simp only [generateMockData, okEnv_removeAllErr, okEnv_mkdirErr]
  rw [Int.toNat_of_nonpos ht, Int.toNat_of_nonpos hcv,
      Int.toNat_of_nonpos him, Int.toNat_of_nonpos hsd]
  simp only [List.range_zero, List.foldl_nil, subdirLoop]

/-- Witness for C10 at concrete negative and zero counts. -/
theorem c10_nonpositive_counts_witness :
    generateMockData (okEnv constContent) ⟨["d"], -1, 0, -5, -2⟩ ⟨[], []⟩
      = (Except.ok (), ⟨[(["d"], Entry.dir)], []⟩) := by
  rw [c10_nonpositive_counts constContent ["d"] (-1) 0 (-5) (-2) ⟨[], []⟩
    (by norm_num) (by norm_num) (by norm_num) (by norm_num)]
  rfl
